import Mathlib

/-!
Shallow embedding of the 8086 instruction decoder from the repository
(package `decoder`: `decoder.go`, `move.go`, `arithmetic.go`, `logic.go`,
`strings.go`, `control-transfer.go`, `interrupt.go`, `processor-control.go`),
together with theorems settling the specification claims.

Machine integers are modelled as `Nat` with explicit `% 2^w` wrapping where
the Go code relies on the fixed width of `byte` / `uint16` / `int8` / `int16`.
Go's `(value, error)` returns together with `panic` are modelled by the
`Fail` error type; Go's pointer-receiver mutation of the `Decoder` struct is
modelled by explicit state passing through `EStateM Fail Ctx`.

The Go builder functions receive the whole `*Decoder` but statically access
only the byte buffer, the read position, the active segment override and the
label map; the embedding makes that access discipline explicit: `Ctx` holds
exactly those four fields, and the decode loop (which alone appends to the
instruction list) owns the remaining fields in `Decoder`.
-/

namespace Sim86

/-- Two's-complement wrap of an integer into the `int8` range, as performed
by Go's 8-bit signed arithmetic. -/
def wrap8 (x : Int) : Int := (x + 128) % 256 - 128

/-- Two's-complement wrap of an integer into the `int16` range, as performed
by Go's 16-bit signed arithmetic. -/
def wrap16 (x : Int) : Int := (x + 32768) % 65536 - 32768

/-- Go's `int8(b)` reinterpretation of a byte value. -/
def int8OfByte (b : Nat) : Int :=
  if b % 256 < 128 then ((b % 256 : Nat) : Int) else ((b % 256 : Nat) : Int) - 256

/-- Go's `int16(v)` reinterpretation of a `uint16` value. -/
def int16OfUint16 (v : Nat) : Int :=
  if v % 65536 < 32768 then ((v % 65536 : Nat) : Int) else ((v % 65536 : Nat) : Int) - 65536

/-- `binary.LittleEndian.Uint16([]byte{lo, hi})`. -/
def uint16LE (lo hi : Nat) : Nat := lo % 256 + 256 * (hi % 256)

/-- Decimal digits of a natural number, most significant first
(the rendering used by Go's `%d` and `strconv.Itoa` on non-negative values,
and by Lean's `Nat.repr`). -/
def natDec (n : Nat) : String := Nat.repr n

/-- Binary rendering of a 3-bit field, as Go's `%.3b` format verb. -/
def bin3 (n : Nat) : String :=
  toString ((n >>> 2) % 2) ++ toString ((n >>> 1) % 2) ++ toString (n % 2)

/-- Failure channel: Go's returned `error` values and Go's `panic`s,
kept distinct. -/
inductive Fail where
  | failure (msg : String)
  | panicked (msg : String)
deriving Repr, DecidableEq

/-- `ByteOperationRegisterFieldEncoding` (Go map; absent keys give `""`). -/
def ByteOperationRegisterFieldEncoding (reg : Nat) : String :=
  match reg with
  | 0b000 => "al"
  | 0b001 => "cl"
  | 0b010 => "dl"
  | 0b011 => "bl"
  | 0b100 => "ah"
  | 0b101 => "ch"
  | 0b110 => "dh"
  | 0b111 => "bh"
  | _ => ""

/-- `WordOperationRegisterFieldEncoding` (Go map; absent keys give `""`). -/
def WordOperationRegisterFieldEncoding (reg : Nat) : String :=
  match reg with
  | 0b000 => "ax"
  | 0b001 => "cx"
  | 0b010 => "dx"
  | 0b011 => "bx"
  | 0b100 => "sp"
  | 0b101 => "bp"
  | 0b110 => "si"
  | 0b111 => "di"
  | _ => ""

/-- `SegmentRegisterFieldEncoding` (Go map; absent keys give `""`). -/
def SegmentRegisterFieldEncoding (reg : Nat) : String :=
  match reg with
  | 0b00 => "es"
  | 0b01 => "cs"
  | 0b10 => "ss"
  | 0b11 => "ds"
  | _ => ""

/-- `EffectiveAddressEquation` (Go map, table 4-10; absent keys give `""`). -/
def EffectiveAddressEquation (rm : Nat) : String :=
  match rm with
  | 0b000 => "bx + si"
  | 0b001 => "bx + di"
  | 0b010 => "bp + si"
  | 0b011 => "bp + di"
  | 0b100 => "si"
  | 0b101 => "di"
  | 0b110 => "bp"
  | 0b111 => "bx"
  | _ => ""

/-- `JumpNames` (Go map; absent keys give `""`). -/
def JumpNames (op : Nat) : String :=
  match op with
  | 0b01110100 => "JZ"
  | 0b01111100 => "JL"
  | 0b01111110 => "JLE"
  | 0b01110010 => "JB"
  | 0b01110110 => "JBE"
  | 0b01111010 => "JP"
  | 0b01110000 => "JO"
  | 0b01111000 => "JS"
  | 0b01110101 => "JNZ"
  | 0b01111101 => "JGE"
  | 0b01111111 => "JG"
  | 0b01110011 => "JAE"
  | 0b01110111 => "JA"
  | 0b01111011 => "JNP"
  | 0b01110001 => "JNO"
  | 0b01111001 => "JNS"
  | 0b11100011 => "JCXZ"
  | 0b11100010 => "LOOP"
  | 0b11100001 => "LOOPZ"
  | 0b11100000 => "LOOPNZ"
  | _ => ""

/-- `JumpAlternativeNames` (Go map; the two-valued comma-ok lookup is
modelled by `Option`). -/
def JumpAlternativeNames (op : Nat) : Option String :=
  match op with
  | 0b01110100 => some "JE"
  | 0b01111100 => some "JNGE"
  | 0b01111110 => some "JNG"
  | 0b01110010 => some "JNAE"
  | 0b01110110 => some "JNA"
  | 0b01111010 => some "JPE"
  | 0b01110101 => some "JNE"
  | 0b01111101 => some "JNL"
  | 0b01111111 => some "JNLE"
  | 0b01110011 => some "JNB"
  | 0b01110111 => some "JNBE"
  | 0b01111011 => some "JPO"
  | 0b11100001 => some "LOOPE"
  | 0b11100000 => some "LOOPNE"
  | _ => none

/-- The decoder fields accessed by the builder functions: the byte buffer,
the cursor, the active segment override, and the label map (`pos:label`).
The Go `map[int]string` is modelled as an association list with
insert-or-replace, preserving the key-set semantics. -/
structure Ctx where
  bytes : List Nat
  pos : Nat
  segment : String
  labels : List (Int × String)
deriving Repr, DecidableEq

/-- Insert into the label map, replacing the value at an existing key. -/
def labelsInsert (labels : List (Int × String)) (k : Int) (v : String) :
    List (Int × String) :=
  if labels.any (fun p => p.1 == k) then
    labels.map (fun p => if p.1 == k then (k, v) else p)
  else
    labels ++ [(k, v)]

/-- Comma-ok lookup in the label map. -/
def labelsLookup (labels : List (Int × String)) (k : Int) : Option String :=
  (labels.find? (fun p => p.1 == k)).map (fun p => p.2)

/-- `func (d *Decoder) next() (byte, bool)` as a pure state transformer;
`none` models `ok == false`. -/
def Ctx.next (c : Ctx) : Option (Nat × Ctx) :=
  if c.bytes.length > c.pos then
    some (c.bytes.getD c.pos 0, { c with pos := c.pos + 1 })
  else
    none

/-- `func (d *Decoder) peekNext() (byte, bool)`. -/
def Ctx.peekNext (c : Ctx) : Option Nat :=
  if c.bytes.length > c.pos then some (c.bytes.getD c.pos 0) else none

/-- `func (d *Decoder) peekForward(offset int) (byte, bool)`; offset 1 is
special-cased to the cursor position exactly as in the source. -/
def Ctx.peekForward (c : Ctx) (offset : Nat) : Option Nat :=
  let pos := if offset = 1 then c.pos else c.pos + offset
  if c.bytes.length > pos then some (c.bytes.getD pos 0) else none

/-- Splitting on the one-character separator `|`, as Go's
`strings.Split(pattern, "|")`, by structural recursion over the characters. -/
def splitOnPipeAux : List Char → List Char → List (List Char)
  | [], acc => [acc.reverse]
  | ch :: rest, acc =>
    if ch = '|' then acc.reverse :: splitOnPipeAux rest []
    else splitOnPipeAux rest (ch :: acc)

/-- The byte templates of a pattern string, as character lists. -/
def splitOnPipe (s : String) : List (List Char) := splitOnPipeAux s.data []

/-- One 8-symbol template check of `matchPattern`: every fixed `0`/`1`
character must agree with the corresponding bit of the byte; any other
character is a wildcard. `q` is the template with the `0b` prefix removed
and its length already checked to be 8. -/
def templateMatches (b : Nat) (q : List Char) : Bool :=
  (List.range 8).all (fun offset =>
    let ch := q.getD offset ' '
    if ch ≠ '0' ∧ ch ≠ '1' then true
    else
      let bit := (b >>> (7 - offset)) % 2
      if bit = 1 then ch = '1' else ch = '0')

/-- Recursion over the byte templates of a pattern, carrying the template
index `i`; for `i > 0` the byte is fetched by lookahead and a missing byte
makes the whole match fail (return `false`, not an error). Malformed
templates are the Go `panic` cases. -/
def matchPatternGo (c : Ctx) (name : String) (candidate : Nat) :
    Nat → List (List Char) → Except Fail Bool
  | _, [] => .ok true
  | i, p :: rest =>
    if p.take 2 = ['0', 'b'] then
      let q := p.drop 2
      if q.length ≠ 8 then
        .error (.panicked ("pattern for '" ++ name ++ "' must be 8 bits long"))
      else if i = 0 then
        if templateMatches candidate q then matchPatternGo c name candidate (i + 1) rest
        else .ok false
      else
        match c.peekForward i with
        | none => .ok false
        | some b =>
          if templateMatches b q then matchPatternGo c name candidate (i + 1) rest
          else .ok false
    else
      .error (.panicked ("pattern for '" ++ name ++ "' must start with '0b'"))

/-- `func (d *Decoder) matchPattern(name string, candidate byte, pattern string) bool`
as a pure function of the decoder state (the method reads the state only
through `peekForward` and never writes it). -/
def matchPatternFn (c : Ctx) (name : String) (candidate : Nat) (pattern : String) :
    Except Fail Bool :=
  matchPatternGo c name candidate 0 (splitOnPipe pattern)

/-- The builder monad: Go's pointer-receiver mutation of the decoder context
plus the `(value, error)` / `panic` outcomes. `EStateM` keeps the state on
failure, as the Go struct keeps its mutations when a builder bails out. -/
abbrev BuilderM (α : Type) := EStateM Fail Ctx α

/-- Lift a pure fallible computation into the builder monad. -/
def liftRes {α : Type} : Except Fail α → BuilderM α
  | .ok a => pure a
  | .error f => throw f

/-- Return an `error` value, Go-style. -/
def throwErr {α : Type} (msg : String) : BuilderM α := throw (.failure msg)

/-- `d.next()` in the builder monad. -/
def nextM : BuilderM (Option Nat) := fun c =>
  match c.next with
  | some (b, c') => .ok (some b) c'
  | none => .ok none c

/-- `d.matchPattern(...)` in the builder monad (reads, never writes). -/
def matchPattern (name : String) (candidate : Nat) (pattern : String) :
    BuilderM Bool := fun c =>
  match matchPatternFn c name candidate pattern with
  | .ok b => .ok b c
  | .error f => .error f c

-- definitions.D_FIELD
abbrev RegIsSource : Nat := 0
abbrev RegIsDestination : Nat := 1

-- definitions.W_FIELD
abbrev ByteOperation : Nat := 0
abbrev WordOperation : Nat := 1

-- definitions.S_FIELD
abbrev NoSignExtension : Nat := 0
abbrev SignExtension : Nat := 1

-- definitions.V_FIELD
abbrev CountByOne : Nat := 0
abbrev CountByCL : Nat := 1

-- definitions.Z_FIELD
abbrev LoopWhileNotZero : Nat := 0
abbrev LoopWhileZero : Nat := 1

-- definitions.MOD field
abbrev MemoryModeNoDisplacementFieldEncoding : Nat := 0b00
abbrev MemoryMode8DisplacementFieldEncoding : Nat := 0b01
abbrev MemoryMode16DisplacementFieldEncoding : Nat := 0b10
abbrev RegisterModeFieldEncoding : Nat := 0b11

/-- `verifyOperationType`: panics unless the W field is a single bit. -/
def verifyOperationType (t : Nat) : Except Fail Unit :=
  if t ≠ WordOperation ∧ t ≠ ByteOperation then
    .error (.panicked ("The operation type should be a binary value (word or byte). Got " ++ natDec t ++ " instead"))
  else .ok ()

/-- `verifyDirection`: panics unless the D field is a single bit. -/
def verifyDirection (dir : Nat) : Except Fail Unit :=
  if dir ≠ RegIsDestination ∧ dir ≠ RegIsSource then
    .error (.panicked ("The direction should be a binary value (dest or src). Got " ++ natDec dir ++ " instead"))
  else .ok ()

/-- `verifySign`: panics unless the S field is a single bit. -/
def verifySign (sign : Nat) : Except Fail Unit :=
  if sign ≠ SignExtension ∧ sign ≠ NoSignExtension then
    .error (.panicked ("The sign should be a binary value (sign or no sign). Got " ++ natDec sign ++ " instead"))
  else .ok ()

/-- `verifyCount`: panics unless the V field is a single bit. -/
def verifyCount (count : Nat) : Except Fail Unit :=
  if count ≠ CountByOne ∧ count ≠ CountByCL then
    .error (.panicked ("The count should be a binary value (1 or CL). Got " ++ natDec count ++ " instead"))
  else .ok ()

/-- `verifyLoop`: panics unless the Z field is a single bit. -/
def verifyLoop (z : Nat) : Except Fail Unit :=
  if z ≠ LoopWhileNotZero ∧ z ≠ LoopWhileZero then
    .error (.panicked ("The z should be a binary value (zero or not zero). Got " ++ natDec z ++ " instead"))
  else .ok ()

/-- `decodeOperand` / `parseOperand`: split a MOD-REG-R/M byte. -/
def decodeOperand (operand : Nat) : Nat × Nat × Nat :=
  (operand >>> 6, (operand >>> 3) &&& 0b111, operand &&& 0b111)

/-- `func (d *Decoder) calculateEffectiveAddress(rm byte, displacementValue uint16, mod byte) string`.
Negative displacements are rendered with the source's complement-plus-one
(`^signed+1`), which is two's-complement negation with 8- or 16-bit wrap. -/
def Ctx.calculateEffectiveAddress (c : Ctx) (rm : Nat) (displacementValue : Nat)
    (mod : Nat) : Except Fail String :=
  let address? : Except Fail String :=
    if mod = MemoryModeNoDisplacementFieldEncoding then
      -- the exception for the direct address - 16-bit displacement for the direct address
      let equation := if rm = 0b110 then natDec displacementValue else EffectiveAddressEquation rm
      .ok ("[" ++ equation ++ "]")
    else if mod = MemoryMode8DisplacementFieldEncoding then
      let equation := EffectiveAddressEquation rm
      let signed := int8OfByte displacementValue
      if signed < 0 then .ok ("[" ++ equation ++ " - " ++ toString (wrap8 (-signed)) ++ "]")
      else .ok ("[" ++ equation ++ " + " ++ natDec displacementValue ++ "]")
    else if mod = MemoryMode16DisplacementFieldEncoding then
      let equation := EffectiveAddressEquation rm
      let signed := int16OfUint16 displacementValue
      if signed < 0 then .ok ("[" ++ equation ++ " - " ++ toString (wrap16 (-signed)) ++ "]")
      else .ok ("[" ++ equation ++ " + " ++ natDec displacementValue ++ "]")
    else
      .error (.panicked ("AssertionError: Unknown mod for effective address calculation. " ++ bin3 mod))
  match address? with
  | .error f => .error f
  | .ok address =>
    if c.segment ≠ "" then .ok (c.segment ++ ":" ++ address) else .ok address

/-- `calculateEffectiveAddress` in the builder monad. -/
def calcEA (rm : Nat) (displacementValue : Nat) (mod : Nat) : BuilderM String := do
  let c ← get
  liftRes (c.calculateEffectiveAddress rm displacementValue mod)

/-- `func (d *Decoder) decodeBinaryRegOrMem(...)`: resolve both operands of a
binary instruction from MOD/REG/R-M, consuming displacement bytes as the MOD
field requires, and order them by the D bit. -/
def decodeBinaryRegOrMem (instructionName : String) (mod reg rm : Nat)
    (isWord : Bool) (dir : Nat) : BuilderM (String × String) := do
  liftRes (verifyDirection dir)
  let regName := if isWord then WordOperationRegisterFieldEncoding reg
                 else ByteOperationRegisterFieldEncoding reg
  if mod = MemoryModeNoDisplacementFieldEncoding then
    -- the exception for the direct address - 16-bit displacement for the direct address
    let displacementValue ←
      if rm = 0b110 then do
        match (← nextM) with
        | none => throwErr ("expected to receive the Low displacement value for direct address in the '" ++ instructionName ++ "' instruction")
        | some displacementLow =>
          match (← nextM) with
          | none => throwErr ("expected to receive the High displacement value for direct address in the '" ++ instructionName ++ "' instruction")
          | some displacementHigh => pure (uint16LE displacementLow displacementHigh)
      else pure 0
    let effectiveAddress ← calcEA rm displacementValue MemoryModeNoDisplacementFieldEncoding
    if dir = RegIsDestination then pure (regName, effectiveAddress)
    else pure (effectiveAddress, regName)
  else if mod = MemoryMode8DisplacementFieldEncoding then do
    match (← nextM) with
    | none => throwErr ("expected to receive the displacement value for the '" ++ instructionName ++ "' instruction")
    | some displacementValue => do
      let effectiveAddress ← calcEA rm displacementValue MemoryMode8DisplacementFieldEncoding
      if dir = RegIsDestination then pure (regName, effectiveAddress)
      else pure (effectiveAddress, regName)
  else if mod = MemoryMode16DisplacementFieldEncoding then do
    match (← nextM) with
    | none => throwErr ("expected to receive the Low displacement value for the '" ++ instructionName ++ "' instruction")
    | some displacementLow =>
      match (← nextM) with
      | none => throwErr ("expected to receive the High displacement value for the '" ++ instructionName ++ "' instruction")
      | some displacementHigh => do
        let displacementValue := uint16LE displacementLow displacementHigh
        let effectiveAddress ← calcEA rm displacementValue MemoryMode16DisplacementFieldEncoding
        if dir = RegIsDestination then pure (regName, effectiveAddress)
        else pure (effectiveAddress, regName)
  else if mod = RegisterModeFieldEncoding then do
    let rmRegisterName := if isWord then WordOperationRegisterFieldEncoding rm
                          else ByteOperationRegisterFieldEncoding rm
    if dir = RegIsDestination then pure (regName, rmRegisterName)
    else pure (rmRegisterName, regName)
  else throw (.panicked "The mod field should only be 2 bits")

/-- `func (d *Decoder) decodeUnaryRegOrMem(...)`: resolve the single
register-or-memory operand of a unary instruction. -/
def decodeUnaryRegOrMem (instructionName : String) (mod rm : Nat)
    (isWord : Bool) : BuilderM String := do
  if mod = MemoryModeNoDisplacementFieldEncoding then
    -- the exception for the direct address - 16-bit displacement for the direct address
    let displacementValue ←
      if rm = 0b110 then do
        match (← nextM) with
        | none => throwErr ("expected to receive the Low displacement value for direct address in the '" ++ instructionName ++ "' instruction")
        | some displacementLow =>
          match (← nextM) with
          | none => throwErr ("expected to receive the High displacement value for direct address in the '" ++ instructionName ++ "' instruction")
          | some displacementHigh => pure (uint16LE displacementLow displacementHigh)
      else pure 0
    calcEA rm displacementValue MemoryModeNoDisplacementFieldEncoding
  else if mod = MemoryMode8DisplacementFieldEncoding then do
    match (← nextM) with
    | none => throwErr ("expected to receive the displacement value for the '" ++ instructionName ++ "' instruction")
    | some displacementValue => calcEA rm displacementValue MemoryMode8DisplacementFieldEncoding
  else if mod = MemoryMode16DisplacementFieldEncoding then do
    match (← nextM) with
    | none => throwErr ("expected to receive the Low displacement value for the '" ++ instructionName ++ "' instruction")
    | some displacementLow =>
      match (← nextM) with
      | none => throwErr ("expected to receive the High displacement value for the '" ++ instructionName ++ "' instruction")
      | some displacementHigh =>
        calcEA rm (uint16LE displacementLow displacementHigh) MemoryMode16DisplacementFieldEncoding
  else if mod = RegisterModeFieldEncoding then
    pure (if isWord then WordOperationRegisterFieldEncoding rm
          else ByteOperationRegisterFieldEncoding rm)
  else throw (.panicked "The mod field should only be 2 bits")

/-- `func (d *Decoder) decodeImmediate(instructionName string, isWord bool)`:
consume a little-endian 8- or 16-bit immediate. -/
def decodeImmediate (instructionName : String) (isWord : Bool) : BuilderM Nat := do
  if isWord then
    match (← nextM) with
    | none => throwErr ("expected to get the immediate value (low) for the '" ++ instructionName ++ "' instruction")
    | some low =>
      match (← nextM) with
      | none => throwErr ("expected to get the immediate value (high) for the '" ++ instructionName ++ "' instruction")
      | some high => pure (uint16LE low high)
  else
    match (← nextM) with
    | none => throwErr ("expected to get the immediate value for the '" ++ instructionName ++ "' instruction")
    | some v => pure v

/-- `func (d *Decoder) decodeAddress(instructionName string, isWord bool)`:
consume a little-endian 8- or 16-bit address. -/
def decodeAddress (instructionName : String) (isWord : Bool) : BuilderM Nat := do
  if isWord then
    match (← nextM) with
    | none => throwErr ("expected to get the address (low) for the '" ++ instructionName ++ "' instruction")
    | some low =>
      match (← nextM) with
      | none => throwErr ("expected to get the address (high) for the '" ++ instructionName ++ "' instruction")
      | some high => pure (uint16LE low high)
  else
    match (← nextM) with
    | none => throwErr ("expected to get the address for the '" ++ instructionName ++ "' instruction")
    | some v => pure v

/-- `func (d *Decoder) immediateWithAccumulator(...)`: shared helper for the
immediate-to-accumulator forms. -/
def immediateWithAccumulator (instructionName : String) (operation : Nat) :
    BuilderM (String × Nat) := do
  let operationType := operation &&& 0b00000001
  liftRes (verifyOperationType operationType)
  let isWord := operationType = WordOperation
  let immediateValue ← decodeImmediate instructionName isWord
  let regName := if isWord then "ax" else "al"
  pure (regName, immediateValue)

/-- `func (d *Decoder) regOrMemWithReg(...)`: shared helper for the
`[xxxxxx|d|w] [mod|reg|r/m]` binary forms. -/
def regOrMemWithReg (instructionName : String) (operation : Nat) :
    BuilderM (String × String) := do
  let operationType := operation &&& 0b00000001
  liftRes (verifyOperationType operationType)
  let isWord := operationType = WordOperation
  let dir := (operation >>> 1) &&& 0b00000001
  liftRes (verifyDirection dir)
  match (← nextM) with
  | none => throwErr ("expected to get an operand for the '" ++ instructionName ++ "' instruction")
  | some operand => do
    let (mod, reg, rm) := decodeOperand operand
    decodeBinaryRegOrMem instructionName mod reg rm isWord dir

/-- `func (d *Decoder) buildImmediateWithRegOrMemInstruction(...)`: shared
helper for the `[100000|s|w] [mod|ext|r/m] ... [data]` immediate forms; the
width passed to `decodeImmediate` is `isWord && !isSigned`, and a sign-extended
immediate is printed as the signed value of its low byte. -/
def buildImmediateWithRegOrMemInstruction (mnemonic : String) (regPattern : Nat)
    (instructionName : String) (operation : Nat) : BuilderM String := do
  let operationType := operation &&& 0b00000001
  liftRes (verifyOperationType operationType)
  let isWord := operationType = WordOperation
  let sign := (operation >>> 1) &&& 0b00000001
  liftRes (verifySign sign)
  let isSigned := sign = SignExtension
  match (← nextM) with
  | none => throwErr ("expected to get an operand for the '" ++ instructionName ++ "' instruction")
  | some operand => do
    let (mod, reg, rm) := decodeOperand operand
    if reg ≠ regPattern then
      throwErr ("expected the reg field to be " ++ bin3 regPattern ++ " for the '" ++ instructionName ++ "' instruction")
    else do
      let dest ← decodeUnaryRegOrMem instructionName mod rm isWord
      let immediateValue ← decodeImmediate instructionName (isWord ∧ ¬ isSigned)
      let size := if isWord then "word" else "byte"
      let sizeText := if mod ≠ RegisterModeFieldEncoding then size ++ " " else ""
      let valueText :=
        if isSigned then toString (int8OfByte (immediateValue % 256))
        else natDec immediateValue
      pure (mnemonic ++ " " ++ dest ++ ", " ++ sizeText ++ valueText ++ "\n")

/-- `mulOrDiv`: shared helper for the `[1111011|w] [mod|ext|r/m]` unary group. -/
def mulOrDiv (mnemonic : String) (regPattern : Nat) (instructionName : String)
    (operation : Nat) : BuilderM String := do
  let operationType := operation &&& 0b00000001
  liftRes (verifyOperationType operationType)
  let isWord := operationType = WordOperation
  match (← nextM) with
  | none => throwErr ("expected to get an operand for the '" ++ instructionName ++ "' instruction")
  | some operand => do
    let (mod, reg, rm) := decodeOperand operand
    if reg ≠ regPattern then
      throwErr ("expected the reg field to be " ++ bin3 regPattern ++ " for the '" ++ instructionName ++ "' instruction")
    else do
      let dest ← decodeUnaryRegOrMem instructionName mod rm isWord
      let size := if isWord then "word" else "byte"
      if mod ≠ RegisterModeFieldEncoding then
        pure (mnemonic ++ " " ++ size ++ " " ++ dest ++ "\n")
      else
        pure (mnemonic ++ " " ++ dest ++ "\n")

/-- `bitShift`: shared helper for the `[110100|v|w] [mod|ext|r/m]` shift and
rotate group. -/
def bitShift (mnemonic : String) (regPattern : Nat) (instructionName : String)
    (operation : Nat) : BuilderM String := do
  let operationType := operation &&& 0b00000001
  liftRes (verifyOperationType operationType)
  let isWord := operationType = WordOperation
  let count := (operation >>> 1) &&& 0b00000001
  liftRes (verifyCount count)
  match (← nextM) with
  | none => throwErr ("expected to get an operand for the '" ++ instructionName ++ "' instruction")
  | some operand => do
    let (mod, reg, rm) := decodeOperand operand
    if reg ≠ regPattern then
      throwErr ("expected the reg field to be " ++ bin3 regPattern ++ " for the '" ++ instructionName ++ "' instruction")
    else do
      let dest ← decodeUnaryRegOrMem instructionName mod rm isWord
      let size := if isWord then "word" else "byte"
      let displayCount := if count = CountByCL then "cl" else "1"
      if mod ≠ RegisterModeFieldEncoding then
        pure (mnemonic ++ " " ++ size ++ " " ++ dest ++ ", " ++ displayCount ++ "\n")
      else
        pure (mnemonic ++ " " ++ dest ++ ", " ++ displayCount ++ "\n")

/-- `moveImmediateToRegOrMem`: `[1100011|w] [mod|000|r/m] ... [data]`. -/
def moveImmediateToRegOrMem (operation : Nat) : BuilderM String := do
  let operationType := operation &&& 0b00000001
  liftRes (verifyOperationType operationType)
  let isWord := operationType = WordOperation
  match (← nextM) with
  | none => throwErr "expected to get an operand for the 'immediate to register/memory' instruction"
  | some operand => do
    let (mod, reg, rm) := decodeOperand operand
    if reg ≠ 0 then
      throwErr "expected the reg field to be 000 for the 'immediate to register/memory' instruction"
    else do
      let dest ← decodeUnaryRegOrMem "immediate to register/memory" mod rm isWord
      let immediateValue ← decodeImmediate "immediate to register/memory" isWord
      let size := if isWord then "word" else "byte"
      let signedValue := int16OfUint16 immediateValue
      let sizeText := if mod ≠ RegisterModeFieldEncoding then size ++ " " else ""
      let commentText := if signedValue < 0 then " ; or " ++ toString signedValue else ""
      pure ("mov " ++ dest ++ ", " ++ sizeText ++ natDec immediateValue ++ commentText ++ "\n")

/-- `moveImmediateToReg`: `[1011|w|reg] [data] [data if w = 1]`. -/
def moveImmediateToReg (operation : Nat) : BuilderM String := do
  let operationType := (operation >>> 3) &&& 0b00000001
  liftRes (verifyOperationType operationType)
  let isWord := operationType = WordOperation
  let reg := operation &&& 0b00000111
  let regName := if isWord then WordOperationRegisterFieldEncoding reg
                 else ByteOperationRegisterFieldEncoding reg
  let immediateValue ← decodeImmediate "MOV: immediate to register" isWord
  let signedValue := int16OfUint16 immediateValue
  if signedValue < 0 then
    pure ("mov " ++ regName ++ ", " ++ natDec immediateValue ++ " ; or " ++ toString signedValue ++ "\n")
  else
    pure ("mov " ++ regName ++ ", " ++ natDec immediateValue ++ "\n")

/-- `moveRegMemToReg`: `[100010|d|w] [mod|reg|r/m] [disp-lo] [disp-hi]`. -/
def moveRegMemToReg (operation : Nat) : BuilderM String := do
  let dir := (operation >>> 1) &&& 0b00000001
  liftRes (verifyDirection dir)
  let operationType := operation &&& 0b00000001
  liftRes (verifyOperationType operationType)
  let isWord := operationType = WordOperation
  match (← nextM) with
  | none => throwErr "expected to get an operand for the 'Register/memory to/from register' instruction"
  | some operand => do
    let (mod, reg, rm) := decodeOperand operand
    let (dest, src) ← decodeBinaryRegOrMem "Register/memory to/from register" mod reg rm isWord dir
    pure ("mov " ++ dest ++ ", " ++ src ++ "\n")

/-- `moveMemoryToAccumulator`: `[1010000|w] [addr-lo] [addr-hi]`. -/
def moveMemoryToAccumulator (operation : Nat) : BuilderM String := do
  let operationType := operation &&& 0b00000001
  liftRes (verifyOperationType operationType)
  let isWord := operationType = WordOperation
  let regName := if isWord then "ax" else "al"
  let address ← decodeAddress "MOV: memory to accumulator" isWord
  pure ("mov " ++ regName ++ ", [" ++ natDec address ++ "]\n")

/-- `moveAccumulatorToMemory`: `[1010001|w] [addr-lo] [addr-hi]`. -/
def moveAccumulatorToMemory (operation : Nat) : BuilderM String := do
  let operationType := operation &&& 0b00000001
  liftRes (verifyOperationType operationType)
  let isWord := operationType = WordOperation
  let address ← decodeAddress "MOV: accumulator to address" isWord
  let regName := if isWord then "ax" else "al"
  pure ("mov [" ++ natDec address ++ "], " ++ regName ++ "\n")

/-- `pushRegOrMem`: `[11111111] [mod|110|r/m]`. -/
def pushRegOrMem (operation : Nat) : BuilderM String := do
  let isWord := true
  match (← nextM) with
  | none => throwErr "expected to get an operand for the 'PUSH: register/memory' instruction"
  | some operand => do
    let (mod, reg, rm) := decodeOperand operand
    if reg ≠ 0b110 then
      throwErr "expected the reg field to be 000 for the 'PUSH: register/memory' instruction"
    else do
      let source ← decodeUnaryRegOrMem "PUSH: register/memory" mod rm isWord
      pure ("push word " ++ source ++ "\n")

/-- `pushReg`: `[01010|reg]`. -/
def pushReg (operation : Nat) : BuilderM String := do
  let reg := operation &&& 0b00000111
  pure ("push " ++ WordOperationRegisterFieldEncoding reg ++ "\n")

/-- `pushSegmentReg`: `[000|reg|110]`. -/
def pushSegmentReg (operation : Nat) : BuilderM String := do
  let reg := (operation >>> 3) &&& 0b00000111
  pure ("push " ++ SegmentRegisterFieldEncoding reg ++ "\n")

/-- `popRegOrMem`: `[10001111] [mod|000|r/m]`. -/
def popRegOrMem (operation : Nat) : BuilderM String := do
  let isWord := true
  match (← nextM) with
  | none => throwErr "expected to get an operand for the 'POP: register/memory' instruction"
  | some operand => do
    let (mod, reg, rm) := decodeOperand operand
    if reg ≠ 0b000 then
      throwErr "expected the reg field to be 000 for the 'POP: register/memory' instruction"
    else do
      let dest ← decodeUnaryRegOrMem "POP: register/memory" mod rm isWord
      pure ("pop word " ++ dest ++ "\n")

/-- `popReg`: `[01011|reg]`. -/
def popReg (operation : Nat) : BuilderM String := do
  let reg := operation &&& 0b00000111
  pure ("pop " ++ WordOperationRegisterFieldEncoding reg ++ "\n")

/-- `popSegmentReg`: `[000|reg|111]`. -/
def popSegmentReg (operation : Nat) : BuilderM String := do
  let reg := (operation >>> 3) &&& 0b00000111
  pure ("pop " ++ SegmentRegisterFieldEncoding reg ++ "\n")

/-- `exchangeRegOrMemWithReg`: `[1000011|w] [mod|reg|r/m]`; REG is always the
source (the source resolves the REG name first and hands it to the binary
operand decoder, which is the same resolution as passing the field). -/
def exchangeRegOrMemWithReg (operation : Nat) : BuilderM String := do
  let dir := RegIsSource
  let operationType := operation &&& 0b00000001
  liftRes (verifyOperationType operationType)
  let isWord := operationType = WordOperation
  match (← nextM) with
  | none => throwErr "expected to get an operand for the 'XCHG: Register/memory with register' instruction"
  | some operand => do
    let (mod, reg, rm) := decodeOperand operand
    let (dest, src) ← decodeBinaryRegOrMem "XCHG: Register/memory with register" mod reg rm isWord dir
    pure ("xchg " ++ dest ++ ", " ++ src ++ "\n")

/-- `exchangeRegWithAccumulator`: `[10010|reg]`, word only. -/
def exchangeRegWithAccumulator (operation : Nat) : BuilderM String := do
  let reg := operation &&& 0b00000111
  pure ("xchg ax, " ++ WordOperationRegisterFieldEncoding reg ++ "\n")

/-- `inputFromFixedPort`: `[1110010|w] [data-8]`. -/
def inputFromFixedPort (operation : Nat) : BuilderM String := do
  let operationType := operation &&& 0b00000001
  liftRes (verifyOperationType operationType)
  let isWord := operationType = WordOperation
  let acc := if isWord then "ax" else "al"
  match (← nextM) with
  | none => throwErr "expected to get a port number for the 'IN: from fixed port' instruction"
  | some port => pure ("in " ++ acc ++ ", " ++ natDec port ++ "\n")

/-- `inputFromVariablePort`: `[1110110|w]`. -/
def inputFromVariablePort (operation : Nat) : BuilderM String := do
  let operationType := operation &&& 0b00000001
  liftRes (verifyOperationType operationType)
  let isWord := operationType = WordOperation
  let acc := if isWord then "ax" else "al"
  pure ("in " ++ acc ++ ", dx\n")

/-- `outputToFixedPort`: `[1110011|w] [data-8]`. -/
def outputToFixedPort (operation : Nat) : BuilderM String := do
  let operationType := operation &&& 0b00000001
  liftRes (verifyOperationType operationType)
  let isWord := operationType = WordOperation
  let acc := if isWord then "ax" else "al"
  match (← nextM) with
  | none => throwErr "expected to get a port number for the 'OUT: to a fixed port' instruction"
  | some port => pure ("out " ++ natDec port ++ ", " ++ acc ++ "\n")

/-- `outputToVariablePort`: `[1110111|w]`. -/
def outputToVariablePort (operation : Nat) : BuilderM String := do
  let operationType := operation &&& 0b00000001
  liftRes (verifyOperationType operationType)
  let isWord := operationType = WordOperation
  let acc := if isWord then "ax" else "al"
  pure ("out dx, " ++ acc ++ "\n")

/-- `xlat`: `[11010111]`. -/
def xlat (operation : Nat) : BuilderM String := pure "xlat\n"

/-- `lea`: `[10001101] [mod|reg|r/m]`, REG is the word-width destination. -/
def lea (operation : Nat) : BuilderM String := do
  let dir := RegIsDestination
  let isWord := true
  match (← nextM) with
  | none => throwErr "expected to get an operand for the 'LEA' instruction"
  | some operand => do
    let (mod, reg, rm) := decodeOperand operand
    let (dest, src) ← decodeBinaryRegOrMem "LEA" mod reg rm isWord dir
    pure ("lea " ++ dest ++ ", " ++ src ++ "\n")

/-- `lds`: `[11000101] [mod|reg|r/m]`. -/
def lds (operation : Nat) : BuilderM String := do
  let dir := RegIsDestination
  let isWord := true
  match (← nextM) with
  | none => throwErr "expected to get an operand for the 'LDS' instruction"
  | some operand => do
    let (mod, reg, rm) := decodeOperand operand
    let (dest, src) ← decodeBinaryRegOrMem "LDS" mod reg rm isWord dir
    pure ("lds " ++ dest ++ ", " ++ src ++ "\n")

/-- `les`: `[11000100] [mod|reg|r/m]`. -/
def les (operation : Nat) : BuilderM String := do
  let dir := RegIsDestination
  let isWord := true
  match (← nextM) with
  | none => throwErr "expected to get an operand for the 'LES' instruction"
  | some operand => do
    let (mod, reg, rm) := decodeOperand operand
    let (dest, src) ← decodeBinaryRegOrMem "LES" mod reg rm isWord dir
    pure ("les " ++ dest ++ ", " ++ src ++ "\n")

/-- `lahf`: `[10011111]`. -/
def lahf (operation : Nat) : BuilderM String := pure "lahf\n"

/-- `sahf`: `[10011110]`. -/
def sahf (operation : Nat) : BuilderM String := pure "sahf\n"

/-- `pushf`: `[10011100]`. -/
def pushf (operation : Nat) : BuilderM String := pure "pushf\n"

/-- `popf`: `[10011101]`. -/
def popf (operation : Nat) : BuilderM String := pure "popf\n"

/-- `aaa`: `[00110111]`. -/
def aaa (operation : Nat) : BuilderM String := pure "aaa\n"

/-- `daa`: `[00100111]`. -/
def daa (operation : Nat) : BuilderM String := pure "daa\n"

/-- `aas`: `[00111111]`. -/
def aas (operation : Nat) : BuilderM String := pure "aas\n"

/-- `das`: `[00101111]`. -/
def das (operation : Nat) : BuilderM String := pure "das\n"

/-- `aam`: `[11010100] [00001010]`. -/
def aam (operation : Nat) : BuilderM String := do
  match (← nextM) with
  | none => throwErr "expected to get an operand for the 'AAM' instruction"
  | some nxt =>
    if nxt ≠ 0b00001010 then
      throwErr "expected the operand to be 00001010 for the 'AAM' instruction"
    else pure "aam\n"

/-- `aad`: `[11010101] [00001010]`. -/
def aad (operation : Nat) : BuilderM String := do
  match (← nextM) with
  | none => throwErr "expected to get an operand for the 'AAD' instruction"
  | some nxt =>
    if nxt ≠ 0b00001010 then
      throwErr "expected the operand to be 00001010 for the 'AAD' instruction"
    else pure "aad\n"

/-- `cbw`: `[10011000]`. -/
def cbw (operation : Nat) : BuilderM String := pure "cbw\n"

/-- `cwd`: `[10011001]`. -/
def cwd (operation : Nat) : BuilderM String := pure "cwd\n"

/-- `addRegOrMemToReg`: `[000000|d|w] [mod|reg|r/m]`. -/
def addRegOrMemToReg (operation : Nat) : BuilderM String := do
  let (dest, src) ← regOrMemWithReg "ADD: Reg/memory with register to either" operation
  pure ("add " ++ dest ++ ", " ++ src ++ "\n")

/-- `addImmediateToRegOrMem`: `[100000|s|w] [mod|000|r/m] ... [data]`. -/
def addImmediateToRegOrMem (operation : Nat) : BuilderM String :=
  buildImmediateWithRegOrMemInstruction "add" 0b000 "ADD: immediate to register/memory" operation

/-- `addImmediateToAccumulator`: `[0000010|w] [data] [data if w = 1]`. -/
def addImmediateToAccumulator (operation : Nat) : BuilderM String := do
  let (regName, immediateValue) ← immediateWithAccumulator "ADD: immediate to accumulator" operation
  pure ("add " ++ regName ++ ", " ++ natDec immediateValue ++ "\n")

/-- `adcRegOrMemToReg`: `[000100|d|w] [mod|reg|r/m]`. -/
def adcRegOrMemToReg (operation : Nat) : BuilderM String := do
  let (dest, src) ← regOrMemWithReg "ADC: Reg/memory with register to either" operation
  pure ("adc " ++ dest ++ ", " ++ src ++ "\n")

/-- `adcImmediateToRegOrMem`: `[100000|s|w] [mod|010|r/m] ... [data]`. -/
def adcImmediateToRegOrMem (operation : Nat) : BuilderM String :=
  buildImmediateWithRegOrMemInstruction "adc" 0b010 "ADC: immediate to register/memory" operation

/-- `adcImmediateToAccumulator`: `[0001010|w] [data] [data if w = 1]`. -/
def adcImmediateToAccumulator (operation : Nat) : BuilderM String := do
  let (regName, immediateValue) ← immediateWithAccumulator "ADC: immediate to accumulator" operation
  pure ("adc " ++ regName ++ ", " ++ natDec immediateValue ++ "\n")

/-- `incRegOrMem`: `[1111111|w] [mod|000|r/m]`. -/
def incRegOrMem (operation : Nat) : BuilderM String := do
  let operationType := operation &&& 0b00000001
  liftRes (verifyOperationType operationType)
  let isWord := operationType = WordOperation
  match (← nextM) with
  | none => throwErr "expected to get an operand for the 'INC: register/memory' instruction"
  | some operand => do
    let (mod, reg, rm) := decodeOperand operand
    if reg ≠ 0b000 then
      throwErr "expected the reg field to be 000 for the 'INC: register/memory' instruction"
    else do
      let dest ← decodeUnaryRegOrMem "INC: register/memory" mod rm isWord
      let size := if isWord then "word" else "byte"
      if mod ≠ RegisterModeFieldEncoding then
        pure ("inc " ++ size ++ " " ++ dest ++ "\n")
      else
        pure ("inc " ++ dest ++ "\n")

/-- `incReg`: `[01000|reg]`, word operation. -/
def incReg (operation : Nat) : BuilderM String := do
  let reg := operation &&& 0b00000111
  pure ("inc " ++ WordOperationRegisterFieldEncoding reg ++ "\n")

/-- `subRegOrMemFromReg`: `[001010|d|w] [mod|reg|r/m]`. -/
def subRegOrMemFromReg (operation : Nat) : BuilderM String := do
  let (dest, src) ← regOrMemWithReg "SUB: Reg/memory and register to either" operation
  pure ("sub " ++ dest ++ ", " ++ src ++ "\n")

/-- `subImmediateFromRegOrMem`: `[100000|s|w] [mod|101|r/m] ... [data]`. -/
def subImmediateFromRegOrMem (operation : Nat) : BuilderM String :=
  buildImmediateWithRegOrMemInstruction "sub" 0b101 "SUB: immediate from register/memory" operation

/-- `subImmediateFromAccumulator`: `[0010110|w] [data] [data if w = 1]`. -/
def subImmediateFromAccumulator (operation : Nat) : BuilderM String := do
  let (regName, immediateValue) ← immediateWithAccumulator "SUB: immediate from accumulator" operation
  pure ("sub " ++ regName ++ ", " ++ natDec immediateValue ++ "\n")

/-- `sbbRegOrMemFromReg`: `[000110|d|w] [mod|reg|r/m]`. -/
def sbbRegOrMemFromReg (operation : Nat) : BuilderM String := do
  let (dest, src) ← regOrMemWithReg "SBB: Reg/memory and register to either" operation
  pure ("sbb " ++ dest ++ ", " ++ src ++ "\n")

/-- `sbbImmediateFromRegOrMem`: `[100000|s|w] [mod|011|r/m] ... [data]`. -/
def sbbImmediateFromRegOrMem (operation : Nat) : BuilderM String :=
  buildImmediateWithRegOrMemInstruction "sbb" 0b011 "SBB: immediate from register/memory" operation

/-- `sbbImmediateFromAccumulator`: `[0001110|w] [data] [data if w = 1]`. -/
def sbbImmediateFromAccumulator (operation : Nat) : BuilderM String := do
  let (regName, immediateValue) ← immediateWithAccumulator "SBB: immediate from accumulator" operation
  pure ("sbb " ++ regName ++ ", " ++ natDec immediateValue ++ "\n")

/-- `decRegOrMem`: `[1111111|w] [mod|001|r/m]`. -/
def decRegOrMem (operation : Nat) : BuilderM String := do
  let operationType := operation &&& 0b00000001
  liftRes (verifyOperationType operationType)
  let isWord := operationType = WordOperation
  match (← nextM) with
  | none => throwErr "expected to get an operand for the 'DEC: register/memory' instruction"
  | some operand => do
    let (mod, reg, rm) := decodeOperand operand
    if reg ≠ 0b001 then
      throwErr "expected the reg field to be 001 for the 'DEC: register/memory' instruction"
    else do
      let dest ← decodeUnaryRegOrMem "DEC: register/memory" mod rm isWord
      let size := if isWord then "word" else "byte"
      if mod ≠ RegisterModeFieldEncoding then
        pure ("dec " ++ size ++ " " ++ dest ++ "\n")
      else
        pure ("dec " ++ dest ++ "\n")

/-- `decReg`: `[01001|reg]`, word operation. -/
def decReg (operation : Nat) : BuilderM String := do
  let reg := operation &&& 0b00000111
  pure ("dec " ++ WordOperationRegisterFieldEncoding reg ++ "\n")

/-- `neg`: `[1111011|w] [mod|011|r/m]`. -/
def neg (operation : Nat) : BuilderM String :=
  mulOrDiv "neg" 0b011 "NEG: Change sign" operation

/-- `mul`: `[1111011|w] [mod|100|r/m]`. -/
def mul (operation : Nat) : BuilderM String :=
  mulOrDiv "mul" 0b100 "MUL: Unsigned multiplication" operation

/-- `imul`: `[1111011|w] [mod|101|r/m]`. -/
def imul (operation : Nat) : BuilderM String :=
  mulOrDiv "imul" 0b101 "IMUL: Signed multiplication" operation

/-- `div`: `[1111011|w] [mod|110|r/m]`. -/
def div (operation : Nat) : BuilderM String :=
  mulOrDiv "div" 0b110 "DIV: Unsigned division" operation

/-- `idiv`: `[1111011|w] [mod|111|r/m]`. -/
def idiv (operation : Nat) : BuilderM String :=
  mulOrDiv "idiv" 0b111 "IDIV: Signed division" operation

/-- `cmpRegOrMemWithReg`: `[001110|d|w] [mod|reg|r/m]`. -/
def cmpRegOrMemWithReg (operation : Nat) : BuilderM String := do
  let (dest, src) ← regOrMemWithReg "CMP: Reg/memory and register" operation
  pure ("cmp " ++ dest ++ ", " ++ src ++ "\n")

/-- `cmpImmediateWithRegOrMem`: `[100000|s|w] [mod|111|r/m] ... [data]`. -/
def cmpImmediateWithRegOrMem (operation : Nat) : BuilderM String :=
  buildImmediateWithRegOrMemInstruction "cmp" 0b111 "CMP: immediate with register/memory" operation

/-- `cmpImmediateWithAccumulator`: `[0011110|w] [data] [data if w = 1]`. -/
def cmpImmediateWithAccumulator (operation : Nat) : BuilderM String := do
  let (regName, immediateValue) ← immediateWithAccumulator "CMP: immediate with accumulator" operation
  pure ("cmp " ++ regName ++ ", " ++ natDec immediateValue ++ "\n")

/-- `not`: `[1111011|w] [mod|010|r/m]`. -/
def not (operation : Nat) : BuilderM String := do
  let operationType := operation &&& 0b00000001
  liftRes (verifyOperationType operationType)
  let isWord := operationType = WordOperation
  match (← nextM) with
  | none => throwErr "expected to get an operand for the 'NOT: Invert' instruction"
  | some operand => do
    let (mod, reg, rm) := decodeOperand operand
    if reg ≠ 0b010 then
      throwErr ("expected the reg field to be " ++ bin3 0b010 ++ " for the 'NOT: Invert' instruction")
    else do
      let dest ← decodeUnaryRegOrMem "NOT: Invert" mod rm isWord
      let size := if isWord then "word" else "byte"
      if mod ≠ RegisterModeFieldEncoding then
        pure ("not " ++ size ++ " " ++ dest ++ "\n")
      else
        pure ("not " ++ dest ++ "\n")

/-- `shl`: `[110100|v|w] [mod|100|r/m]`. -/
def shl (operation : Nat) : BuilderM String :=
  bitShift "shl" 0b100 "SHL/SAL: Shift logical/arithmetic left" operation

/-- `shr`: `[110100|v|w] [mod|101|r/m]`. -/
def shr (operation : Nat) : BuilderM String :=
  bitShift "shr" 0b101 "SHR: Shift logical right" operation

/-- `sar`: `[110100|v|w] [mod|111|r/m]`. -/
def sar (operation : Nat) : BuilderM String :=
  bitShift "sar" 0b111 "SAR: Shift arithmetic right" operation

/-- `rol`: `[110100|v|w] [mod|000|r/m]`. -/
def rol (operation : Nat) : BuilderM String :=
  bitShift "rol" 0b000 "ROL: Rotate left" operation

/-- `ror`: `[110100|v|w] [mod|001|r/m]`. -/
def ror (operation : Nat) : BuilderM String :=
  bitShift "ror" 0b001 "ROR: Rotate right" operation

/-- `rcl`: `[110100|v|w] [mod|010|r/m]`. -/
def rcl (operation : Nat) : BuilderM String :=
  bitShift "rcl" 0b010 "RCL: Rotate through carry flag left" operation

/-- `rcr`: `[110100|v|w] [mod|011|r/m]`. -/
def rcr (operation : Nat) : BuilderM String :=
  bitShift "rcr" 0b011 "RCR: Rotate through carry flag right" operation

/-- `andRegOrMemWithReg`: `[001000|d|w] [mod|reg|r/m]`. -/
def andRegOrMemWithReg (operation : Nat) : BuilderM String := do
  let (dest, src) ← regOrMemWithReg "AND: Reg/memory with register to either" operation
  pure ("and " ++ dest ++ ", " ++ src ++ "\n")

/-- `andImmediateWithRegOrMem`: `[1000000|w] [mod|100|r/m] ... [data]`. -/
def andImmediateWithRegOrMem (operation : Nat) : BuilderM String :=
  buildImmediateWithRegOrMemInstruction "and" 0b100 "AND: Immediate with register/memory" operation

/-- `andImmediateWithAccumulator`: `[0010010|w] [data] [data if w = 1]`. -/
def andImmediateWithAccumulator (operation : Nat) : BuilderM String := do
  let (regName, immediateValue) ← immediateWithAccumulator "AND: immediate with accumulator" operation
  pure ("and " ++ regName ++ ", " ++ natDec immediateValue ++ "\n")

/-- `testRegOrMemWithReg`: `[100001|d|w] [mod|reg|r/m]`. -/
def testRegOrMemWithReg (operation : Nat) : BuilderM String := do
  let (dest, src) ← regOrMemWithReg "TEST: Reg/memory with register to either" operation
  pure ("test " ++ dest ++ ", " ++ src ++ "\n")

/-- `testImmediateWithRegOrMem`: `[1111011|w] [mod|000|r/m] ... [data]`. -/
def testImmediateWithRegOrMem (operation : Nat) : BuilderM String :=
  buildImmediateWithRegOrMemInstruction "test" 0b000 "TEST: Immediate with register/memory" operation

/-- `testImmediateWithAccumulator`: `[1010100|w] [data] [data if w = 1]`. -/
def testImmediateWithAccumulator (operation : Nat) : BuilderM String := do
  let (regName, immediateValue) ← immediateWithAccumulator "TEST: immediate with accumulator" operation
  pure ("test " ++ regName ++ ", " ++ natDec immediateValue ++ "\n")

/-- `orRegOrMemWithReg`: `[000010|d|w] [mod|reg|r/m]`. -/
def orRegOrMemWithReg (operation : Nat) : BuilderM String := do
  let (dest, src) ← regOrMemWithReg "OR: Reg/memory with register to either" operation
  pure ("or " ++ dest ++ ", " ++ src ++ "\n")

/-- `orImmediateWithRegOrMem`: `[1000000|w] [mod|001|r/m] ... [data]`. -/
def orImmediateWithRegOrMem (operation : Nat) : BuilderM String :=
  buildImmediateWithRegOrMemInstruction "or" 0b001 "OR: Immediate with register/memory" operation

/-- `orImmediateWithAccumulator`: `[0000110|w] [data] [data if w = 1]`. -/
def orImmediateWithAccumulator (operation : Nat) : BuilderM String := do
  let (regName, immediateValue) ← immediateWithAccumulator "OR: immediate with accumulator" operation
  pure ("or " ++ regName ++ ", " ++ natDec immediateValue ++ "\n")

/-- `xorRegOrMemWithReg`: `[001100|d|w] [mod|reg|r/m]`. -/
def xorRegOrMemWithReg (operation : Nat) : BuilderM String := do
  let (dest, src) ← regOrMemWithReg "XOR: Reg/memory with register to either" operation
  pure ("xor " ++ dest ++ ", " ++ src ++ "\n")

/-- `xorImmediateWithRegOrMem`: `[1000000|w] [mod|110|r/m] ... [data]`. -/
def xorImmediateWithRegOrMem (operation : Nat) : BuilderM String :=
  buildImmediateWithRegOrMemInstruction "xor" 0b110 "XOR: Immediate with register/memory" operation

/-- `xorImmediateWithAccumulator`: `[0011010|w] [data] [data if w = 1]`. -/
def xorImmediateWithAccumulator (operation : Nat) : BuilderM String := do
  let (regName, immediateValue) ← immediateWithAccumulator "XOR: immediate with accumulator" operation
  pure ("xor " ++ regName ++ ", " ++ natDec immediateValue ++ "\n")

/-- `movs`: `[1010010|w]`. -/
def movs (operation : Nat) : BuilderM String := do
  let operationType := operation &&& 0b00000001
  liftRes (verifyOperationType operationType)
  if operationType = WordOperation then pure "movsw\n" else pure "movsb\n"

/-- `cmps`: `[1010011|w]`. -/
def cmps (operation : Nat) : BuilderM String := do
  let operationType := operation &&& 0b00000001
  liftRes (verifyOperationType operationType)
  if operationType = WordOperation then pure "cmpsw\n" else pure "cmpsb\n"

/-- `scas`: `[1010111|w]`. -/
def scas (operation : Nat) : BuilderM String := do
  let operationType := operation &&& 0b00000001
  liftRes (verifyOperationType operationType)
  if operationType = WordOperation then pure "scasw\n" else pure "scasb\n"

/-- `lods`: `[1010110|w]`. -/
def lods (operation : Nat) : BuilderM String := do
  let operationType := operation &&& 0b00000001
  liftRes (verifyOperationType operationType)
  if operationType = WordOperation then pure "lodsw\n" else pure "lodsb\n"

/-- `stos`: `[1010101|w]`. -/
def stos (operation : Nat) : BuilderM String := do
  let operationType := operation &&& 0b00000001
  liftRes (verifyOperationType operationType)
  if operationType = WordOperation then pure "stosw\n" else pure "stosb\n"

/-- `createLabelName`: the synthetic label name is a pure function of the
absolute target position. -/
def createLabelName (pos : Int) : String := "label__" ++ toString pos

/-- `callDirectWithinSegment`: `[11101000] [ip-inc-lo] [ip-inc-hi]`;
the 32-bit sum wraps as Go's `uint32` arithmetic. -/
def callDirectWithinSegment (operation : Nat) : BuilderM String := do
  match (← nextM) with
  | none => throwErr "expected to get a lower instruction pointer byte in 'CALL: Direct within segment'"
  | some low =>
    match (← nextM) with
    | none => throwErr "expected to get a higher instruction pointer byte in 'CALL: Direct within segment'"
    | some high => do
      let c ← get
      let pointerIncrement := uint16LE low high
      let pointer := (pointerIncrement + c.pos) % 4294967296
      pure ("call " ++ natDec pointer ++ "\n")

/-- `callIndirectWithinSegment`: `[11111111] [mod|010|r/m]`. -/
def callIndirectWithinSegment (operation : Nat) : BuilderM String := do
  let isWord := true
  match (← nextM) with
  | none => throwErr "expected to get an operand in 'CALL: Indirect within segment'"
  | some operand => do
    let (mod, reg, rm) := decodeOperand operand
    if reg ≠ 0b010 then
      throwErr "expected to get a register value of 010 in 'CALL: Indirect within segment'"
    else do
      let procedureAddress ← decodeUnaryRegOrMem "CALL: Indirect within segment" mod rm isWord
      pure ("call " ++ procedureAddress ++ "\n")

/-- `callDirectIntersegment`: `[10011010] [ip-lo] [ip-hi] [cs-lo] [cs-hi]`. -/
def callDirectIntersegment (operation : Nat) : BuilderM String := do
  match (← nextM) with
  | none => throwErr "expected to get a lower instruction pointer byte in 'CALL: Direct intersegment'"
  | some ipLow =>
    match (← nextM) with
    | none => throwErr "expected to get a higher instruction pointer byte in 'CALL: Direct intersegment'"
    | some ipHigh =>
      match (← nextM) with
      | none => throwErr "expected to get a lower code segment byte in 'CALL: Direct intersegment'"
      | some codeSegmentLow =>
        match (← nextM) with
        | none => throwErr "expected to get a higher code segment byte in 'CALL: Direct intersegment'"
        | some codeSegmentHigh => do
          let instructionPointer := uint16LE ipLow ipHigh
          let codeSegment := uint16LE codeSegmentLow codeSegmentHigh
          pure ("call " ++ natDec codeSegment ++ ":" ++ natDec instructionPointer ++ "\n")

/-- `callIndirectIntersegment`: `[11111111] [mod|011|r/m]`. -/
def callIndirectIntersegment (operation : Nat) : BuilderM String := do
  let isWord := true
  match (← nextM) with
  | none => throwErr "expected to get an operand in 'CALL: Indirect intersegment'"
  | some operand => do
    let (mod, reg, rm) := decodeOperand operand
    if reg ≠ 0b011 then
      throwErr "expected to get a register value of 011 in 'CALL: Indirect intersegment'"
    else do
      let procedureAddress ← decodeUnaryRegOrMem "CALL: Indirect intersegment" mod rm isWord
      pure ("call far " ++ procedureAddress ++ "\n")

/-- `jumpDirectWithinSegment`: `[11101001] [ip-inc-lo] [ip-inc-hi]`. -/
def jumpDirectWithinSegment (operation : Nat) : BuilderM String := do
  match (← nextM) with
  | none => throwErr "expected to get a lower instruction pointer byte in 'JMP: Direct within segment'"
  | some low =>
    match (← nextM) with
    | none => throwErr "expected to get a higher instruction pointer byte in 'JMP: Direct within segment'"
    | some high => do
      let c ← get
      let pointerIncrement := uint16LE low high
      let pointer := (pointerIncrement + c.pos) % 4294967296
      pure ("jmp " ++ natDec pointer ++ "\n")

/-- `jumpDirectWithinSegmentShort`: `[11101011] [ip-inc8]`; records a
synthetic label for the relative target. -/
def jumpDirectWithinSegmentShort (operation : Nat) : BuilderM String := do
  match (← nextM) with
  | none => throwErr "expected to get an 8-bit instruction pointer increment in 'JMP: Direct within segment-short'"
  | some pointerIncrement => do
    let c ← get
    let address : Int := (c.pos : Int) + int8OfByte pointerIncrement
    let labelName := createLabelName address
    modify (fun c => { c with labels := labelsInsert c.labels address labelName })
    pure ("jmp " ++ labelName ++ "\n")

/-- `jumpIndirectWithinSegment`: `[11111111] [mod|100|r/m]`. -/
def jumpIndirectWithinSegment (operation : Nat) : BuilderM String := do
  let isWord := true
  match (← nextM) with
  | none => throwErr "expected to get an operand in 'JMP: Indirect within segment'"
  | some operand => do
    let (mod, reg, rm) := decodeOperand operand
    if reg ≠ 0b100 then
      throwErr "expected to get a register value of 100 in 'JMP: Indirect within segment'"
    else do
      let address ← decodeUnaryRegOrMem "JMP: Indirect within segment" mod rm isWord
      pure ("jmp " ++ address ++ "\n")

/-- `jumpDirectIntersegment`: `[11101010] [ip-lo] [ip-hi] [cs-lo] [cs-hi]`. -/
def jumpDirectIntersegment (operation : Nat) : BuilderM String := do
  match (← nextM) with
  | none => throwErr "expected to get a lower instruction pointer byte in 'JMP: Direct intersegment'"
  | some ipLow =>
    match (← nextM) with
    | none => throwErr "expected to get a higher instruction pointer byte in 'JMP: Direct intersegment'"
    | some ipHigh =>
      match (← nextM) with
      | none => throwErr "expected to get a lower code segment byte in 'JMP: Direct intersegment'"
      | some codeSegmentLow =>
        match (← nextM) with
        | none => throwErr "expected to get a higher code segment byte in 'JMP: Direct intersegment'"
        | some codeSegmentHigh => do
          let instructionPointer := uint16LE ipLow ipHigh
          let codeSegment := uint16LE codeSegmentLow codeSegmentHigh
          pure ("jmp " ++ natDec codeSegment ++ ":" ++ natDec instructionPointer ++ "\n")

/-- `jumpIndirectIntersegment`: `[11111111] [mod|101|r/m]`. -/
def jumpIndirectIntersegment (operation : Nat) : BuilderM String := do
  let isWord := true
  match (← nextM) with
  | none => throwErr "expected to get an operand in 'JMP: Indirect intersegment'"
  | some operand => do
    let (mod, reg, rm) := decodeOperand operand
    if reg ≠ 0b101 then
      throwErr "expected to get a register value of 101 in 'JMP: Indirect intersegment'"
    else do
      let address ← decodeUnaryRegOrMem "JMP: Indirect intersegment" mod rm isWord
      pure ("jmp far " ++ address ++ "\n")

/-- `jumpConditionally`: conditional jumps and loops; reads one signed 8-bit
displacement, resolves the target as the position after the displacement plus
the signed offset, and records a deterministic synthetic label for it. -/
def jumpConditionally (operation : Nat) : BuilderM String := do
  let name := JumpNames operation
  let comment :=
    match JumpAlternativeNames operation with
    | some altName => "; " ++ altName
    | none => ""
  match (← nextM) with
  | none => throwErr ("expected to get a jump instruction pointer for the '" ++ name ++ "' instruction")
  | some instructionPointer => do
    let offset := int8OfByte instructionPointer
    let c ← get
    -- we start position counting from 1, instead of 0
    let labelLocation : Int := (c.pos : Int) + offset
    let labelName := createLabelName labelLocation
    modify (fun c => { c with labels := labelsInsert c.labels labelLocation labelName })
    if comment = "" then
      pure (name ++ " " ++ labelName ++ "\n")
    else
      pure (name ++ " " ++ labelName ++ " " ++ comment ++ "\n")

/-- `interruptWithType`: `[11001101] [data]`. -/
def interruptWithType (operation : Nat) : BuilderM String := do
  match (← nextM) with
  | none => throwErr "expected to get a type for the 'INT: type specified' instruction"
  | some data => pure ("int " ++ natDec data ++ "\n")

/-- `interruptType3`: `[11001100]`. -/
def interruptType3 (operation : Nat) : BuilderM String := pure "int3\n"

/-- `interruptOnOverflow`: `[11001110]`. -/
def interruptOnOverflow (operation : Nat) : BuilderM String := pure "into\n"

/-- `interruptReturn`: `[11001111]`. -/
def interruptReturn (operation : Nat) : BuilderM String := pure "iret\n"

/-- `clc`: `[11111000]`. -/
def clc (operation : Nat) : BuilderM String := pure "clc\n"

/-- `cmc`: `[11110101]`. -/
def cmc (operation : Nat) : BuilderM String := pure "cmc\n"

/-- `stc`: `[11111001]`. -/
def stc (operation : Nat) : BuilderM String := pure "stc\n"

/-- `cld`: `[11111100]`. -/
def cld (operation : Nat) : BuilderM String := pure "cld\n"

/-- `std`: `[11111101]`. -/
def std (operation : Nat) : BuilderM String := pure "std\n"

/-- `cli`: `[11111010]`. -/
def cli (operation : Nat) : BuilderM String := pure "cli\n"

/-- `sti`: `[11111011]`. -/
def sti (operation : Nat) : BuilderM String := pure "sti\n"

/-- `hlt`: `[11110100]`. -/
def hlt (operation : Nat) : BuilderM String := pure "hlt\n"

/-- `wait`: `[10011011]`. -/
def wait (operation : Nat) : BuilderM String := pure "wait\n"

/-- `repeatPrefix`: `[1111001|z]`; peeks at the following byte to pick the
string-instruction family, and uses the zero-flag-sensitive spellings only
for the compare/scan families. -/
def repeatPrefix (operation : Nat) : BuilderM String := do
  let loop := operation &&& 0b00000001
  liftRes (verifyLoop loop)
  let c ← get
  match c.peekNext with
  | none => pure "rep"
  | some nxt =>
    -- the switch on the top seven bits of the peeked byte, as an equality chain
    let mnemonic : Option String :=
      if nxt >>> 1 = 0b1010010 then some "movs"
      else if nxt >>> 1 = 0b1010011 then some "cmps"
      else if nxt >>> 1 = 0b1010111 then some "scas"
      else if nxt >>> 1 = 0b1010110 then some "lods"
      else if nxt >>> 1 = 0b1010101 then some "stos"
      else none
    match mnemonic with
    | none => pure "rep"
    | some mnemonic =>
      -- As this is a convention to use
      if mnemonic = "cmps" ∨ mnemonic = "scas" then
        if loop = LoopWhileZero then pure "repz" else pure "repnz"
      else pure "rep"

/-- Modelled from the spec: the source file defining `segmentPrefix` is not
present under `src/` (only its caller in `Decode` is). Per the spec (§4.5 and
the data model) the override byte `001__110` selects the segment-register
name, via the two wildcard bits and `SegmentRegisterFieldEncoding`, to be
applied as a prefix to the rendered effective address. -/
def segmentPrefix (operation : Nat) : String :=
  SegmentRegisterFieldEncoding ((operation >>> 3) &&& 0b11)

set_option maxRecDepth 8000 in
/-- The ordered dispatch over table 4-12 from `Decode`: the first matching
pattern's builder is invoked; the `RET` entries and an unmatched opcode are
the source's `panic` cases. -/
def dispatch (operation : Nat) : BuilderM String := do
  if (← matchPattern "MOV: Register/memory to/from register" operation "0b100010dw") then
    moveRegMemToReg operation
  else if (← matchPattern "MOV: Immediate to register/memory" operation "0b1100011w") then
    moveImmediateToRegOrMem operation
  else if (← matchPattern "MOV: Immediate to register" operation "0b1011wreg") then
    moveImmediateToReg operation
  else if (← matchPattern "MOV: Memory to accumulator" operation "0b1010000w") then
    moveMemoryToAccumulator operation
  else if (← matchPattern "MOV: Accumulator to memory" operation "0b1010001w") then
    moveAccumulatorToMemory operation
  else if (← matchPattern "PUSH: Register/memory" operation "0b11111111|0b__110___") then
    pushRegOrMem operation
  else if (← matchPattern "PUSH: Register" operation "0b01010reg") then
    pushReg operation
  else if (← matchPattern "PUSH: segment register" operation "0b000__110") then
    pushSegmentReg operation
  else if (← matchPattern "POP: Register/memory" operation "0b10001111|0b__000___") then
    popRegOrMem operation
  else if (← matchPattern "POP: Register" operation "0b01011reg") then
    popReg operation
  else if (← matchPattern "POP: segment register" operation "0b000__111") then
    popSegmentReg operation
  else if (← matchPattern "XCHG: Register/memory with register" operation "0b1000011w") then
    exchangeRegOrMemWithReg operation
  else if (← matchPattern "XCHG: register with accumulator" operation "0b10010reg") then
    exchangeRegWithAccumulator operation
  else if (← matchPattern "IN: Fixed port" operation "0b1110010w") then
    inputFromFixedPort operation
  else if (← matchPattern "IN: Variable port" operation "0b1110110w") then
    inputFromVariablePort operation
  else if (← matchPattern "OUT: Fixed port" operation "0b1110011w") then
    outputToFixedPort operation
  else if (← matchPattern "OUT: Variable port" operation "0b1110111w") then
    outputToVariablePort operation
  else if (← matchPattern "XLAT - Translate byte to AL" operation "0b11010111") then
    xlat operation
  else if (← matchPattern "LEA - Load effective address to register" operation "0b10001101") then
    lea operation
  else if (← matchPattern "LDS - Load pointer to DS" operation "0b11000101") then
    lds operation
  else if (← matchPattern "LES - Load pointer to ES" operation "0b11000100") then
    les operation
  else if (← matchPattern "LAHF - Load AH with flags" operation "0b10011111") then
    lahf operation
  else if (← matchPattern "SAHF - Store AH into flags" operation "0b10011110") then
    sahf operation
  else if (← matchPattern "PUSHF - Push flags" operation "0b10011100") then
    pushf operation
  else if (← matchPattern "POPF - Pop flags" operation "0b10011101") then
    popf operation
  else if (← matchPattern "ADD: Reg/memory with register to either" operation "0b000000dw") then
    addRegOrMemToReg operation
  else if (← matchPattern "ADD: Immediate to register/memory" operation "0b100000sw|0b__000___") then
    addImmediateToRegOrMem operation
  else if (← matchPattern "ADD: Immediate to accumulator" operation "0b0000010w") then
    addImmediateToAccumulator operation
  else if (← matchPattern "ADC: Reg/memory with register to either" operation "0b000100dw") then
    adcRegOrMemToReg operation
  else if (← matchPattern "ADC: Immediate to register/memory" operation "0b100000sw|0b__010___") then
    adcImmediateToRegOrMem operation
  else if (← matchPattern "ADC: Immediate to accumulator" operation "0b0001010w") then
    adcImmediateToAccumulator operation
  else if (← matchPattern "INC: Register/memory" operation "0b1111111w|0b__000___") then
    incRegOrMem operation
  else if (← matchPattern "INC: Register" operation "0b01000reg") then
    incReg operation
  else if (← matchPattern "AAA: ASCII adjust for add" operation "0b00110111") then
    aaa operation
  else if (← matchPattern "DAA: Decimal adjust for add" operation "0b00100111") then
    daa operation
  else if (← matchPattern "SUB: Reg/memory and register to either" operation "0b001010dw") then
    subRegOrMemFromReg operation
  else if (← matchPattern "SUB: Immediate to register/memory" operation "0b100000sw|0b__101___") then
    subImmediateFromRegOrMem operation
  else if (← matchPattern "SUB: Immediate from accumulator" operation "0b0010110w") then
    subImmediateFromAccumulator operation
  else if (← matchPattern "SBB: Reg/memory and register to either" operation "0b000110dw") then
    sbbRegOrMemFromReg operation
  else if (← matchPattern "SBB: Immediate to register/memory" operation "0b100000sw|0b__011___") then
    sbbImmediateFromRegOrMem operation
  else if (← matchPattern "SBB: Immediate from accumulator" operation "0b0001110w") then
    sbbImmediateFromAccumulator operation
  else if (← matchPattern "DEC: Register/memory" operation "0b1111111w|0b__001___") then
    decRegOrMem operation
  else if (← matchPattern "DEC: Register" operation "0b01001reg") then
    decReg operation
  else if (← matchPattern "NEG: Change sign" operation "0b1111011w|0b__011___") then
    neg operation
  else if (← matchPattern "CMP: Reg/memory and register" operation "0b001110dw") then
    cmpRegOrMemWithReg operation
  else if (← matchPattern "CMP: Immediate with register/memory" operation "0b100000sw|0b__111___") then
    cmpImmediateWithRegOrMem operation
  else if (← matchPattern "CMP: Immediate from accumulator" operation "0b0011110w") then
    cmpImmediateWithAccumulator operation
  else if (← matchPattern "AAS: ASCII adjust for subtract" operation "0b00111111") then
    aas operation
  else if (← matchPattern "DAS: decimal adjust for subtract" operation "0b00101111") then
    das operation
  else if (← matchPattern "MUL: Unsigned multiply" operation "0b1111011w|0b__100___") then
    mul operation
  else if (← matchPattern "IMUL: Signed multiply" operation "0b1111011w|0b__101___") then
    imul operation
  else if (← matchPattern "AAM: ASCII adjust for multiply" operation "0b11010100|0b00001010") then
    aam operation
  else if (← matchPattern "DIV: Unsigned divide" operation "0b1111011w|0b__110___") then
    div operation
  else if (← matchPattern "IDIV: Signed divide" operation "0b1111011w|0b__111___") then
    idiv operation
  else if (← matchPattern "AAD: ASCII adjust for divide" operation "0b11010101|0b00001010") then
    aad operation
  else if (← matchPattern "CBW: convert byte to word" operation "0b10011000") then
    cbw operation
  else if (← matchPattern "CWD: convert word to double word" operation "0b10011001") then
    cwd operation
  else if (← matchPattern "NOT: Invert" operation "0b1111011w|0b__010___") then
    not operation
  else if (← matchPattern "SHL/SAL: Shift logical/arithmetic left" operation "0b110100vw|0b__100___") then
    shl operation
  else if (← matchPattern "SHR: Shift logical right" operation "0b110100vw|0b__101___") then
    shr operation
  else if (← matchPattern "SAR: Shift arithmetic right" operation "0b110100vw|0b__111___") then
    sar operation
  else if (← matchPattern "ROL: Rotate left" operation "0b110100vw|0b__000___") then
    rol operation
  else if (← matchPattern "ROR: Rotate right" operation "0b110100vw|0b__001___") then
    ror operation
  else if (← matchPattern "RCL: Rotate through carry left" operation "0b110100vw|0b__010___") then
    rcl operation
  else if (← matchPattern "RCR: Rotate through carry right" operation "0b110100vw|0b__011___") then
    rcr operation
  else if (← matchPattern "AND: Logical AND reg/mem with reg" operation "0b001000dw") then
    andRegOrMemWithReg operation
  else if (← matchPattern "AND: Logical AND immediate with reg/mem" operation "0b1000000w|0b__100___") then
    andImmediateWithRegOrMem operation
  else if (← matchPattern "AND: Logical AND immediate with accumulator" operation "0b0010010w") then
    andImmediateWithAccumulator operation
  else if (← matchPattern "TEST: Logical compare reg/mem with reg" operation "0b100001dw") then
    testRegOrMemWithReg operation
  else if (← matchPattern "TEST: Logical compare immediate with reg/mem" operation "0b1111011w|0b__000___") then
    testImmediateWithRegOrMem operation
  else if (← matchPattern "TEST: Logical compare immediate with accumulator" operation "0b1010100w") then
    testImmediateWithAccumulator operation
  else if (← matchPattern "OR: Logical OR reg/mem with reg" operation "0b000010dw") then
    orRegOrMemWithReg operation
  else if (← matchPattern "OR: Logical OR immediate with reg/mem" operation "0b1000000w|0b__001___") then
    orImmediateWithRegOrMem operation
  else if (← matchPattern "OR: Logical OR immediate with accumulator" operation "0b0000110w") then
    orImmediateWithAccumulator operation
  else if (← matchPattern "XOR: Logical XOR reg/mem with reg" operation "0b001100dw") then
    xorRegOrMemWithReg operation
  else if (← matchPattern "XOR: Logical XOR immediate with reg/mem" operation "0b1000000w|0b__110___") then
    xorImmediateWithRegOrMem operation
  else if (← matchPattern "XOR: Logical XOR immediate with accumulator" operation "0b0011010w") then
    xorImmediateWithAccumulator operation
  else if (← matchPattern "MOVS: move byte/word" operation "0b1010010w") then
    movs operation
  else if (← matchPattern "CMPS: compare byte/word" operation "0b1010011w") then
    cmps operation
  else if (← matchPattern "SCAS: scan byte/word" operation "0b1010111w") then
    scas operation
  else if (← matchPattern "LODS: load byte/word" operation "0b1010110w") then
    lods operation
  else if (← matchPattern "STOS: store byte/word" operation "0b1010101w") then
    stos operation
  else if (← matchPattern "CALL: Direct within segment" operation "0b11101000") then
    callDirectWithinSegment operation
  else if (← matchPattern "CALL: Indirect within segment" operation "0b11111111|0b__010___") then
    callIndirectWithinSegment operation
  else if (← matchPattern "CALL: Direct intersegment" operation "0b10011010") then
    callDirectIntersegment operation
  else if (← matchPattern "CALL: Indirect intersegment" operation "0b11111111|0b__011___") then
    callIndirectIntersegment operation
  else if (← matchPattern "JMP: Direct within segment" operation "0b11101001") then
    jumpDirectWithinSegment operation
  else if (← matchPattern "JMP: Direct within segment-short" operation "0b11101011") then
    jumpDirectWithinSegmentShort operation
  else if (← matchPattern "JMP: Indirect within segment" operation "0b11111111|0b__100___") then
    jumpIndirectWithinSegment operation
  else if (← matchPattern "JMP: Direct intersegment" operation "0b11101010") then
    jumpDirectIntersegment operation
  else if (← matchPattern "JMP: Indirect intersegment" operation "0b11111111|0b__101___") then
    jumpIndirectIntersegment operation
  else if (← matchPattern "RET: Within segment" operation "0b11000011") then
    throw (.panicked "TODO: RET: Within segment")
  else if (← matchPattern "RET: Within seg adding immed to SP" operation "0b11000010") then
    throw (.panicked "TODO: RET: Within seg adding immed to SP")
  else if (← matchPattern "RET: Intersegment" operation "0b11001011") then
    throw (.panicked "TODO: RET: Intersegment")
  else if (← matchPattern "RET: Intersegment adding immediate to SP" operation "0b11001010") then
    throw (.panicked "TODO: RET: Intersegment adding immediate to SP")
  else if (← matchPattern "JE/JZ: Jump on equal/zero" operation "0b01110100") then
    jumpConditionally operation
  else if (← matchPattern "JL/JNGE: Jump on less/not greater or equal" operation "0b01111100") then
    jumpConditionally operation
  else if (← matchPattern "JLE/JNG: Jump on less or equal/not greater" operation "0b01111110") then
    jumpConditionally operation
  else if (← matchPattern "JB/JNAE: Jump on below/not above or equal" operation "0b01110010") then
    jumpConditionally operation
  else if (← matchPattern "JBE/JNA: Jump on below or equal/not above" operation "0b01110110") then
    jumpConditionally operation
  else if (← matchPattern "JP/JPE: Jump on parity/even" operation "0b01111010") then
    jumpConditionally operation
  else if (← matchPattern "JO: Jump on overflow" operation "0b01110000") then
    jumpConditionally operation
  else if (← matchPattern "JS: Jump on sign" operation "0b01111000") then
    jumpConditionally operation
  else if (← matchPattern "JNE/JNZ: Jump on not equal/not zero" operation "0b01110101") then
    jumpConditionally operation
  else if (← matchPattern "JNL/JGE: Jump on not less/greater or equal" operation "0b01111101") then
    jumpConditionally operation
  else if (← matchPattern "JNLE/JG: Jump on not less nor equal/greater" operation "0b01111111") then
    jumpConditionally operation
  else if (← matchPattern "JNB/JAE: Jump on not below/above or equal" operation "0b01110011") then
    jumpConditionally operation
  else if (← matchPattern "JNBE/JA: Jump on not below nor equal/above" operation "0b01110111") then
    jumpConditionally operation
  else if (← matchPattern "JNP/JPO: Jump on not parity/odd" operation "0b01111011") then
    jumpConditionally operation
  else if (← matchPattern "JNO: Jump on not overflow" operation "0b01110001") then
    jumpConditionally operation
  else if (← matchPattern "JNS: Jump on not sign" operation "0b01111001") then
    jumpConditionally operation
  else if (← matchPattern "JCXZ: Jump if CX register is zero" operation "0b11100011") then
    jumpConditionally operation
  else if (← matchPattern "LOOP: Loop CX times" operation "0b11100010") then
    jumpConditionally operation
  else if (← matchPattern "LOOPZ/LOOPE: Loop while zero/equal" operation "0b11100001") then
    jumpConditionally operation
  else if (← matchPattern "LOOPNZ/LOOPNE: Loop while not zero/not equal" operation "0b11100000") then
    jumpConditionally operation
  else if (← matchPattern "INT: Type specified" operation "0b11001101") then
    interruptWithType operation
  else if (← matchPattern "INT: type 3" operation "0b11001100") then
    interruptType3 operation
  else if (← matchPattern "INTO: interrupt on overflow" operation "0b11001110") then
    interruptOnOverflow operation
  else if (← matchPattern "IRET: Interrupt return" operation "0b11001111") then
    interruptReturn operation
  else if (← matchPattern "CLC: Clear carry" operation "0b11111000") then
    clc operation
  else if (← matchPattern "CMC: Complement carry" operation "0b11110101") then
    cmc operation
  else if (← matchPattern "STC: Set carry" operation "0b11111001") then
    stc operation
  else if (← matchPattern "CLD: Clear direction" operation "0b11111100") then
    cld operation
  else if (← matchPattern "STD: set direction" operation "0b11111101") then
    std operation
  else if (← matchPattern "CLI: Clear interrupt" operation "0b11111010") then
    cli operation
  else if (← matchPattern "STI: Set interrupt" operation "0b11111011") then
    sti operation
  else if (← matchPattern "HLT: Halt" operation "0b11110100") then
    hlt operation
  else if (← matchPattern "WAIT: Wait" operation "0b10011011") then
    wait operation
  else
    throw (.panicked ("AssertionError: unexpected operation " ++ natDec operation))

/-- The per-instruction prefix scan of `Decode`'s loop body: read the first
byte (ending the loop on exhaustion), recognise a LOCK or REP prefix and
re-read the opcode after it (ending the loop on exhaustion), then either set
the segment override from a `001__110` byte and re-read the opcode, or clear
the override. Returns the instruction start position, the rendered prefix
text, and the opcode byte handed to the dispatcher. (The source also carries
a self-comparison assertion on the instruction pointer that can never fire;
it is omitted.) -/
def scanPrefixes : BuilderM (Option (Nat × String × Nat)) := do
  match (← nextM) with
  | none => pure none
  | some operation => do
    let c ← get
    let instructionPointer := c.pos
    let pfx ←
      (do
        if (← matchPattern "LOCK: Bus lock prefix" operation "0b11110000") then
          pure "lock "
        else if (← matchPattern "REP: Repeat" operation "0b1111001z") then do
          pure ((← repeatPrefix operation) ++ " ")
        else
          pure "")
    let operation2? ← if pfx ≠ "" then nextM else pure (some operation)
    match operation2? with
    | none => pure none
    | some operation2 => do
      if (← matchPattern "SEGMENT: override prefix" operation2 "0b001__110") then do
        modify (fun c => { c with segment := segmentPrefix operation2 })
        match (← nextM) with
        | none => pure none
        | some operation3 => pure (some (instructionPointer, pfx, operation3))
      else do
        modify (fun c => { c with segment := "" })
        pure (some (instructionPointer, pfx, operation2))

/-- The builder-level part of one iteration of `Decode`'s loop: prefix scan,
dispatch, and prefix gluing; `none` is the loop's `break`. -/
def stepCore : BuilderM (Option (Nat × String)) := do
  match (← scanPrefixes) with
  | none => pure none
  | some (instructionPointer, pfx, operation) => do
    let instruction ← dispatch operation
    let instruction := if pfx ≠ "" then pfx ++ instruction else instruction
    pure (some (instructionPointer, instruction))

/-- One decoded instruction: its rendered text and the position where it
started (`instructionNode` in the source). -/
structure instructionNode where
  value : String
  pos : Nat
deriving Repr, DecidableEq

/-- The full decoder state: the builder-visible context plus the fields owned
by the decode loop and the renderer. -/
structure Decoder where
  ctx : Ctx
  nodes : List instructionNode
  cacheKey : String
  decoded : String
deriving Repr, DecidableEq

/-- `func NewDecoder(bytes []byte) *Decoder`. -/
def NewDecoder (bytes : List Nat) : Decoder :=
  { ctx := { bytes := bytes, pos := 0, segment := "", labels := [] }
    nodes := []
    cacheKey := ""
    decoded := "" }

/-- `func (d *Decoder) appendInstruction(pos int, value string)`. -/
def Decoder.appendInstruction (d : Decoder) (pos : Nat) (value : String) : Decoder :=
  { d with nodes := d.nodes ++ [{ value := value, pos := pos }] }

/-- `func (d *Decoder) computeCacheKey() string`: the cheap change signature
of the renderer (instruction count and label count). -/
def Decoder.computeCacheKey (d : Decoder) : String :=
  "n=" ++ toString d.nodes.length ++ ";l=" ++ toString d.ctx.labels.length

/-- The text one instruction node contributes to the rendered output: the
declaration line of the label at its starting position, if any, followed by
the instruction's own text. -/
def renderNode (labels : List (Int × String)) (n : instructionNode) : String :=
  (match labelsLookup labels ((n.pos : Int) - 1) with
   | some label => label ++ ":\n"
   | none => "") ++ n.value

/-- The renderer's walk over the ordered instruction list. -/
def renderNodes (labels : List (Int × String)) (nodes : List instructionNode) : String :=
  nodes.foldl (fun acc n => acc ++ renderNode labels n) ""

/-- `func (d *Decoder) GetDecoded() []byte`: memoized against the cheap
change signature; recomputes the full render on any change. -/
def Decoder.GetDecoded (d : Decoder) : String × Decoder :=
  let cacheKey := d.computeCacheKey
  if cacheKey = d.cacheKey then (d.decoded, d)
  else
    let dec := renderNodes d.ctx.labels d.nodes
    (dec, { d with decoded := dec, cacheKey := cacheKey })

/-- The loop-level monad: the builder context plus the loop-owned fields. -/
abbrev DecM (α : Type) := EStateM Fail Decoder α

/-- Run a builder computation on the context part of the full state; the
loop-owned fields are untouched whether it succeeds or fails. -/
def liftB {α : Type} (m : BuilderM α) : DecM α := fun d =>
  match m d.ctx with
  | .ok a c => .ok a { d with ctx := c }
  | .error f c => .error f { d with ctx := c }

/-- `GetDecoded` in the loop monad. -/
def GetDecodedM : DecM String := fun d =>
  match d.GetDecoded with
  | (s, d') => .ok s d'

/-- One full iteration of `Decode`'s loop: builder work, then - only on
success - appending the rendered instruction at its start position. Returns
`false` when the loop `break`s on exhaustion. -/
def decodeStep : DecM Bool := fun d =>
  match stepCore d.ctx with
  | .ok none c => .ok false { d with ctx := c }
  | .ok (some (instructionPointer, instruction)) c =>
    .ok true (Decoder.appendInstruction { d with ctx := c } instructionPointer instruction)
  | .error f c => .error f { d with ctx := c }

/-- The decode loop; the fuel only bounds the iteration count (each continuing
iteration consumes at least one byte, so `length + 1` is always enough). -/
def decodeLoop : Nat → DecM Unit
  | 0 => throw (.panicked "decode loop ran out of fuel")
  | fuel + 1 => do
    if (← decodeStep) then decodeLoop fuel else pure ()

/-- `func (d *Decoder) Decode() ([]byte, error)`: reset the cursor, run the
loop to exhaustion, and return the rendered output; a builder error aborts
the pass and is returned to the caller with no instruction appended for the
failed iteration. -/
def Decode : DecM String := do
  modify (fun d => { d with ctx := { d.ctx with pos := 0 } })
  let d ← get
  decodeLoop (d.ctx.bytes.length + 1)
  GetDecodedM

/-- Run a whole decode pass over a fresh decoder. -/
def runDecode (bytes : List Nat) : EStateM.Result Fail Decoder String :=
  Decode (NewDecoder bytes)

/-- The text produced by a successful decode pass, `none` on any failure. -/
def decodedText (bytes : List Nat) : Option String :=
  match runDecode bytes with
  | .ok s _ => some s
  | .error _ _ => none

/-- The value the REP-family prefix builder produces, as a pure function of
the prefix byte and the peeked following byte (a closed form used to state
that ` repeatPrefix` only reads the state). -/
def repValue (operation : Nat) : Option Nat → String
  | none => "rep"
  | some nxt =>
    if nxt >>> 1 = 0b1010011 ∨ nxt >>> 1 = 0b1010111 then
      if operation &&& 1 = LoopWhileZero then "repz" else "repnz"
    else "rep"

/-- The round-trip law stated by the specification, written from its words:
an assembler reproduces, from the rendered text, every byte sequence the
decoder accepts. -/
def RoundTripLaw (assemble : String → List Nat) : Prop :=
  ∀ (bytes : List Nat) (text : String), decodedText bytes = some text → assemble text = bytes

end Sim86

deriving instance DecidableEq for Except

deriving instance DecidableEq for EStateM.Result

namespace Sim86

theorem digitChar_isDigit {m : Nat} (h : m < 10) : (Nat.digitChar m).isDigit = true := by
  interval_cases m <;> decide

theorem toDigitsCore_digits : ∀ (fuel n : Nat) (acc : List Char),
    (∀ ch ∈ acc, ch.isDigit = true) →
    ∀ ch ∈ Nat.toDigitsCore 10 fuel n acc, ch.isDigit = true := by
  intro fuel
  induction fuel with
  | zero =>
    intro n acc hacc ch hch
    rw [Nat.toDigitsCore] at hch
    exact hacc ch hch
  | succ fuel ih =>
    intro n acc hacc ch hch
    rw [Nat.toDigitsCore] at hch
    by_cases h : n / 10 = 0
    · simp only [h, if_true] at hch
      rcases List.mem_cons.mp hch with h1 | h1
      · rw [h1]; exact digitChar_isDigit (Nat.mod_lt _ (by norm_num))
      · exact hacc ch h1
    · simp only [h, if_false] at hch
      refine ih (n / 10) (Nat.digitChar (n % 10) :: acc) ?_ ch hch
      intro c hc
      rcases List.mem_cons.mp hc with h1 | h1
      · rw [h1]; exact digitChar_isDigit (Nat.mod_lt _ (by norm_num))
      · exact hacc c h1

theorem natDec_digits (v : Nat) : ∀ ch ∈ (natDec v).data, ch.isDigit = true := by
  intro ch hch
  have hrepr : (natDec v).data = Nat.toDigitsCore 10 (v + 1) v [] := rfl
  rw [hrepr] at hch
  refine toDigitsCore_digits (v + 1) v [] ?_ ch hch
  intro c hc
  exact absurd hc (List.not_mem_nil c)

theorem toDigitsCore_ne_nil : ∀ (fuel n : Nat) (acc : List Char),
    0 < fuel ∨ acc ≠ [] → Nat.toDigitsCore 10 fuel n acc ≠ [] := by
  intro fuel
  induction fuel with
  | zero =>
    intro n acc hf
    rw [Nat.toDigitsCore]
    rcases hf with h | h
    · exact absurd h (by omega)
    · exact h
  | succ fuel ih =>
    intro n acc hf
    rw [Nat.toDigitsCore]
    by_cases h : n / 10 = 0
    · simp only [h, if_true]
      exact List.cons_ne_nil _ _
    · simp only [h, if_false]
      exact ih (n / 10) (Nat.digitChar (n % 10) :: acc) (Or.inr (List.cons_ne_nil _ _))

theorem natDec_data_head (v : Nat) :
    ∃ d rest, (natDec v).data = d :: rest ∧ d.isDigit = true := by
  have hne : (natDec v).data ≠ [] :=
    toDigitsCore_ne_nil (v + 1) v [] (Or.inl (Nat.succ_pos v))
  obtain ⟨d, rest, hd⟩ := List.exists_cons_of_ne_nil hne
  refine ⟨d, rest, hd, natDec_digits v d ?_⟩
  rw [hd]
  exact List.mem_cons_self d rest

theorem natDec_append_ne_b (v : Nat) (t rest : List Char) :
    (natDec v).data ++ t ≠ 'b' :: rest := by
  intro h
  obtain ⟨d, ds, hd, hdig⟩ := natDec_data_head v
  rw [hd] at h
  simp only [List.cons_append, List.cons.injEq] at h
  rw [h.1] at hdig
  exact absurd hdig (by decide)

theorem direct_operand_ne_bp (seg : String) (v : Nat) :
    seg ++ "[" ++ natDec v ++ "]" ≠ seg ++ "[bp]" := by
  intro h
  have hd := congrArg String.data h
  simp only [String.data_append, List.append_assoc] at hd
  have h2 := List.append_cancel_left hd
  simp only [List.singleton_append, List.cons.injEq, true_and] at h2
  exact natDec_append_ne_b v [']'] ['p', ']'] h2

theorem direct_operand_ne_bp_plus_zero (seg : String) (v : Nat) :
    seg ++ "[" ++ natDec v ++ "]" ≠ seg ++ "[bp + 0]" := by
  intro h
  have hd := congrArg String.data h
  simp only [String.data_append, List.append_assoc] at hd
  have h2 := List.append_cancel_left hd
  simp only [List.singleton_append, List.cons.injEq, true_and] at h2
  exact natDec_append_ne_b v [']'] ['p', ' ', '+', ' ', '0', ']'] h2

theorem length_if_getD (l : List Nat) (i : Nat) :
    (if l.length > i then some (l.getD i 0) else none) = l[i]? := by
  by_cases h : i < l.length
  · simp [h, List.getD_eq_getElem?_getD, List.getElem?_eq_getElem]
  · simp [h, List.getElem?_eq_none (Nat.le_of_not_lt h)]

/-- C10 counterexample: with buffer `[10, 20, 30, 40]` and the cursor at 0,
`peekForward 1` returns 10 (the byte about to be read next, index 0), so
under the claim's indexing convention `peekForward 2` would have to return
the byte at the following index (20); the code instead returns the byte at
index 2 (30), skipping index 1. -/
theorem C10_counterexample :
    Ctx.peekForward ⟨[10, 20, 30, 40], 0, "", []⟩ 1 = some 10
    ∧ Ctx.peekForward ⟨[10, 20, 30, 40], 0, "", []⟩ 2 = some 30
    ∧ Ctx.peekForward ⟨[10, 20, 30, 40], 0, "", []⟩ 2 ≠ some 20 := by
  refine ⟨by decide, by decide, by decide⟩

/-- C10 (amended): `peekForward 1` returns the byte about to be read next
(the byte at the cursor index); for every offset `k ≥ 2` it returns the byte
at index `cursor + k` - one past the position the offset-1 convention would
give, so offset 2 skips the byte immediately after the next one - and it
signals exhaustion by returning no value, without raising, whenever the
selected index lies past the end of the buffer. -/
theorem C10_peekForward (c : Ctx) (k : Nat) (hk : 1 ≤ k) :
    (k = 1 → c.peekForward k = c.bytes[c.pos]?)
    ∧ (2 ≤ k → c.peekForward k = c.bytes[c.pos + k]?)
    ∧ (c.bytes.length ≤ c.pos → c.peekForward k = none) := by
  refine ⟨?_, ?_, ?_⟩
  · intro h1
    rw [h1]
    unfold Ctx.peekForward
    simp only [if_pos rfl]
    exact length_if_getD c.bytes c.pos
  · intro h2
    have hne : k ≠ 1 := by omega
    unfold Ctx.peekForward
    simp only [hne, if_false]
    exact length_if_getD c.bytes (c.pos + k)
  · intro hpast
    unfold Ctx.peekForward
    by_cases h1 : k = 1
    · simp only [h1, if_pos rfl]
      have : ¬ c.bytes.length > c.pos := by omega
      simp [this]
    · simp only [h1, if_false]
      have : ¬ c.bytes.length > c.pos + k := by omega
      simp [this]

/-- C10 witness: at buffer `[5, 6, 7]`, cursor 0, offset 2, the amended
description gives the byte at index 2. -/
theorem C10_witness : Ctx.peekForward ⟨[5, 6, 7], 0, "", []⟩ 2 = some 7 := by
  have h := (C10_peekForward ⟨[5, 6, 7], 0, "", []⟩ 2 (by decide)).2.1 (by decide)
  rw [h]
  decide

/-- C3 counterexample: an 8-bit displacement byte `0x80` (value -128) under
MOD=01 renders as `[di - -128]`, not `[di - 128]`; a 16-bit displacement
`0x8000` (value -32768) under MOD=10 renders as `[bp + di - -32768]`, not
`[bp + di - 32768]` - the complement-plus-one negation wraps at the most
negative value, so the rendered magnitude is not the absolute value there. -/
theorem C3_counterexample :
    Ctx.calculateEffectiveAddress ⟨[], 0, "", []⟩ 5 0x80 1 = .ok "[di - -128]"
    ∧ "[di - -128]" ≠ "[di - 128]"
    ∧ Ctx.calculateEffectiveAddress ⟨[], 0, "", []⟩ 3 0x8000 2 = .ok "[bp + di - -32768]"
    ∧ "[bp + di - -32768]" ≠ "[bp + di - 32768]" := by
  refine ⟨by decide, by decide, by decide, by decide⟩

/-- C3 (amended): for MOD=01 and MOD=10 memory operands with no segment
override, a negative displacement other than the most negative value renders
as the equation, a literal minus, and the absolute value of the displacement
(so displacement byte 11111111 renders as the term `- 1`); at the most
negative values (-128 for 8-bit, -32768 for 16-bit) the complement-plus-one
negation wraps and the digits printed after the minus are `-128`
respectively `-32768` instead of the absolute value. -/
theorem C3_negative_displacement (c : Ctx) (rm v : Nat) (hseg : c.segment = "") :
    (int8OfByte v < 0 → int8OfByte v ≠ -128 →
      c.calculateEffectiveAddress rm v 1 =
        .ok ("[" ++ EffectiveAddressEquation rm ++ " - " ++ toString (-(int8OfByte v)) ++ "]"))
    ∧ (int8OfByte v = -128 →
      c.calculateEffectiveAddress rm v 1 =
        .ok ("[" ++ EffectiveAddressEquation rm ++ " - " ++ "-128" ++ "]"))
    ∧ (int16OfUint16 v < 0 → int16OfUint16 v ≠ -32768 →
      c.calculateEffectiveAddress rm v 2 =
        .ok ("[" ++ EffectiveAddressEquation rm ++ " - " ++ toString (-(int16OfUint16 v)) ++ "]"))
    ∧ (int16OfUint16 v = -32768 →
      c.calculateEffectiveAddress rm v 2 =
        .ok ("[" ++ EffectiveAddressEquation rm ++ " - " ++ "-32768" ++ "]")) := by
  have hb8 : -128 ≤ int8OfByte v ∧ int8OfByte v < 128 := by
    unfold int8OfByte
    split <;> omega
  have hb16 : -32768 ≤ int16OfUint16 v ∧ int16OfUint16 v < 32768 := by
    unfold int16OfUint16
    split <;> omega
  refine ⟨?_, ?_, ?_, ?_⟩
  · intro hneg hmin
    have hwrap : wrap8 (-(int8OfByte v)) = -(int8OfByte v) := by
      unfold wrap8; omega
    unfold Ctx.calculateEffectiveAddress
    simp [hseg, hneg, hwrap]
  · intro hmin
    have hwrap : toString (wrap8 (128 : Int)) = "-128" := by decide
    unfold Ctx.calculateEffectiveAddress
    simp [hseg, hmin, hwrap]
  · intro hneg hmin
    have hwrap : wrap16 (-(int16OfUint16 v)) = -(int16OfUint16 v) := by
      unfold wrap16; omega
    unfold Ctx.calculateEffectiveAddress
    simp [hseg, hneg, hwrap]
  · intro hmin
    have hwrap : toString (wrap16 (32768 : Int)) = "-32768" := by decide
    unfold Ctx.calculateEffectiveAddress
    simp [hseg, hmin, hwrap]

/-- C3 witness: displacement byte `0xFB` (-5) renders as `[di - 5]` and the
displacement byte 11111111 (-1) renders as `[si - 1]`. -/
theorem C3_witness :
    Ctx.calculateEffectiveAddress ⟨[], 0, "", []⟩ 5 0xFB 1 = .ok "[di - 5]"
    ∧ Ctx.calculateEffectiveAddress ⟨[], 0, "", []⟩ 4 0xFF 1 = .ok "[si - 1]" := by
  constructor
  · have h := (C3_negative_displacement ⟨[], 0, "", []⟩ 5 0xFB rfl).1 (by decide) (by decide)
    rw [h]
    decide
  · have h := (C3_negative_displacement ⟨[], 0, "", []⟩ 4 0xFF rfl).1 (by decide) (by decide)
    rw [h]
    decide

/-- C5: a REP-family prefix byte renders as `repz` (Z=1) or `repnz` (Z=0)
exactly when the top seven bits of the following byte select CMPS (1010011)
or SCAS (1010111); for MOVS, LODS, STOS, any other following byte, or a
missing following byte, it renders as plain `rep` regardless of the Z bit -
and the prefix scan never consumes or moves the cursor. -/
theorem C5_repeatPrefix (c : Ctx) (operation : Nat) :
    ∃ r, repeatPrefix operation c = .ok r c
    ∧ (match c.peekNext with
       | some nxt =>
         if nxt >>> 1 = 0b1010011 ∨ nxt >>> 1 = 0b1010111 then
           r = (if operation &&& 1 = 1 then "repz" else "repnz")
         else r = "rep"
       | none => r = "rep") := by
  have hand : operation &&& 1 = operation % 2 := Nat.and_one_is_mod operation
  have hloop : operation % 2 = 0 ∨ operation % 2 = 1 := Nat.mod_two_eq_zero_or_one operation
  have hverify : verifyLoop (operation % 2) = .ok () := by
    rcases hloop with h | h <;> rw [h] <;> decide
  have hv0 : verifyLoop 0 = .ok () := by decide
  have hv1 : verifyLoop 1 = .ok () := by decide
  have hcs : (("cmps" : String) = "cmps" ∨ ("cmps" : String) = "scas") := Or.inl rfl
  have hss : (("scas" : String) = "cmps" ∨ ("scas" : String) = "scas") := Or.inr rfl
  have hmv : ¬ (("movs" : String) = "cmps" ∨ ("movs" : String) = "scas") := by decide
  have hld : ¬ (("lods" : String) = "cmps" ∨ ("lods" : String) = "scas") := by decide
  have hst : ¬ (("stos" : String) = "cmps" ∨ ("stos" : String) = "scas") := by decide
  cases hpeek : c.peekNext with
  | none =>
    refine ⟨"rep", ?_, by simp⟩
    unfold repeatPrefix
    simp [hand, hverify, hv0, hv1, hpeek, liftRes, bind, EStateM.bind, get, getThe, MonadStateOf.get,
      EStateM.get, pure, EStateM.pure]
  | some nxt =>
    by_cases h1 : nxt >>> 1 = 0b1010010
    · refine ⟨"rep", ?_, by simp [h1]⟩
      unfold repeatPrefix
      simp [hand, hverify, hv0, hv1, hpeek, h1, hmv, liftRes, bind, EStateM.bind, get, getThe,
        MonadStateOf.get, EStateM.get, pure, EStateM.pure]
    · by_cases h2 : nxt >>> 1 = 0b1010011
      · refine ⟨if operation &&& 1 = 1 then "repz" else "repnz", ?_, by simp [h2]⟩
        unfold repeatPrefix
        rcases hloop with h | h <;>
          simp [hand, hverify, hv0, hv1, hpeek, h1, h2, h, hcs, LoopWhileZero, liftRes, bind,
            EStateM.bind, get, getThe, MonadStateOf.get, EStateM.get, pure, EStateM.pure]
      · by_cases h3 : nxt >>> 1 = 0b1010111
        · refine ⟨if operation &&& 1 = 1 then "repz" else "repnz", ?_, by simp [h2, h3]⟩
          unfold repeatPrefix
          rcases hloop with h | h <;>
            simp [hand, hverify, hv0, hv1, hpeek, h1, h2, h3, h, hss, LoopWhileZero, liftRes, bind,
              EStateM.bind, get, getThe, MonadStateOf.get, EStateM.get, pure, EStateM.pure]
        · by_cases h4 : nxt >>> 1 = 0b1010110
          · refine ⟨"rep", ?_, by simp [h2, h3]⟩
            unfold repeatPrefix
            simp [hand, hverify, hv0, hv1, hpeek, h1, h2, h3, h4, hld, liftRes, bind, EStateM.bind,
              get, getThe, MonadStateOf.get, EStateM.get, pure, EStateM.pure]
          · by_cases h5 : nxt >>> 1 = 0b1010101
            · refine ⟨"rep", ?_, by simp [h2, h3]⟩
              unfold repeatPrefix
              simp [hand, hverify, hv0, hv1, hpeek, h1, h2, h3, h4, h5, hst, liftRes, bind,
                EStateM.bind, get, getThe, MonadStateOf.get, EStateM.get, pure, EStateM.pure]
            · refine ⟨"rep", ?_, by simp [h2, h3]⟩
              unfold repeatPrefix
              simp [hand, hverify, hv0, hv1, hpeek, h1, h2, h3, h4, h5, liftRes, bind, EStateM.bind,
                get, getThe, MonadStateOf.get, EStateM.get, pure, EStateM.pure]

/-- C7: when a pattern has a second (or later) 8-symbol template and the
lookahead byte it requires does not exist in the buffer, `matchPattern`
returns `false` - not an error - and the decoder state (in particular the
cursor) is left untouched; indeed no `matchPattern` call that returns a value
ever changes the state. -/
theorem C7_matchPattern (c : Ctx) (name : String) (candidate : Nat) (pattern : String)
    (hlen : 2 ≤ (splitOnPipe pattern).length)
    (hwf : ∀ p ∈ splitOnPipe pattern, ∃ q : List Char, p = '0' :: 'b' :: q ∧ q.length = 8)
    (hpast : c.bytes.length ≤ c.pos) :
    (matchPatternFn c name candidate pattern = .ok false
     ∧ matchPattern name candidate pattern c = .ok false c)
    ∧ ∀ (c2 : Ctx) (r : Bool) (c2' : Ctx),
        matchPattern name candidate pattern c2 = .ok r c2' → c2' = c2 := by
  constructor
  · have hfn : matchPatternFn c name candidate pattern = .ok false := by
      rcases hsp : splitOnPipe pattern with _ | ⟨p0, rest0⟩
      · rw [hsp] at hlen; simp at hlen
      · rcases rest0 with _ | ⟨p1, rest⟩
        · rw [hsp] at hlen; simp at hlen
        · obtain ⟨q0, hp0, hq0⟩ := hwf p0 (by rw [hsp]; exact List.mem_cons_self _ _)
          obtain ⟨q1, hp1, hq1⟩ := hwf p1 (by
            rw [hsp]; exact List.mem_cons_of_mem _ (List.mem_cons_self _ _))
          have hpf : c.peekForward 1 = none := by
            unfold Ctx.peekForward
            have hnot : ¬ c.bytes.length > c.pos := by omega
            simp [hnot]
          unfold matchPatternFn
          rw [hsp, hp0, hp1]
          by_cases hm : templateMatches candidate q0
          · simp [matchPatternGo, hq0, hq1, hm, hpf]
          · simp [matchPatternGo, hq0, hm]
    refine ⟨hfn, ?_⟩
    unfold matchPattern
    rw [hfn]
  · intro c2 r c2' h
    unfold matchPattern at h
    cases hfn : matchPatternFn c2 name candidate pattern with
    | ok b => rw [hfn] at h; cases h; rfl
    | error f => rw [hfn] at h; cases h

/-- C7 witness: the two-byte PUSH pattern against an exhausted buffer. -/
theorem C7_witness :
    matchPattern "PUSH: Register/memory" 0xFF "0b11111111|0b__110___" ⟨[0xFF], 1, "", []⟩
      = .ok false ⟨[0xFF], 1, "", []⟩ := by
  have h := C7_matchPattern ⟨[0xFF], 1, "", []⟩ "PUSH: Register/memory" 0xFF
    "0b11111111|0b__110___" (by decide)
    (by
      intro p hp
      have hsp : splitOnPipe "0b11111111|0b__110___" =
          [['0', 'b', '1', '1', '1', '1', '1', '1', '1', '1'],
           ['0', 'b', '_', '_', '1', '1', '0', '_', '_', '_']] := by decide
      rw [hsp] at hp
      rcases List.mem_cons.mp hp with h1 | hp2
      · exact ⟨['1', '1', '1', '1', '1', '1', '1', '1'], by rw [h1], by decide⟩
      · rcases List.mem_cons.mp hp2 with h1 | h1
        · exact ⟨['_', '_', '1', '1', '0', '_', '_', '_'], by rw [h1], by decide⟩
        · exact absurd h1 (List.not_mem_nil p))
    (by decide)
  exact h.1.2

/-- C2: for both operand resolvers, MOD=00 with R/M=110 consumes exactly the
two following bytes and produces a direct little-endian 16-bit address
operand with no base-register term - never the `bp` base-register equation
(`[bp]`), and never `[bp + 0]`. -/
theorem C2_direct_address (c : Ctx) (nm : String) (reg : Nat) (isWord : Bool) (dir : Nat)
    (lo hi : Nat) (hlo : c.bytes.getD c.pos 0 = lo) (hhi : c.bytes.getD (c.pos + 1) 0 = hi)
    (hlen : c.pos + 1 < c.bytes.length) (hdir : dir = 0 ∨ dir = 1) :
    (decodeUnaryRegOrMem nm 0 6 isWord c =
      .ok ((if c.segment = "" then "" else c.segment ++ ":") ++ "[" ++ natDec (uint16LE lo hi) ++ "]")
        { c with pos := c.pos + 2 })
    ∧ (decodeBinaryRegOrMem nm 0 reg 6 isWord dir c =
      .ok (if dir = 1
           then ((if isWord then WordOperationRegisterFieldEncoding reg
                  else ByteOperationRegisterFieldEncoding reg),
                 (if c.segment = "" then "" else c.segment ++ ":") ++ "[" ++ natDec (uint16LE lo hi) ++ "]")
           else ((if c.segment = "" then "" else c.segment ++ ":") ++ "[" ++ natDec (uint16LE lo hi) ++ "]",
                 (if isWord then WordOperationRegisterFieldEncoding reg
                  else ByteOperationRegisterFieldEncoding reg)))
        { c with pos := c.pos + 2 })
    ∧ ((if c.segment = "" then "" else c.segment ++ ":") ++ "[" ++ natDec (uint16LE lo hi) ++ "]"
        ≠ (if c.segment = "" then "" else c.segment ++ ":") ++ "[bp]")
    ∧ ((if c.segment = "" then "" else c.segment ++ ":") ++ "[" ++ natDec (uint16LE lo hi) ++ "]"
        ≠ (if c.segment = "" then "" else c.segment ++ ":") ++ "[bp + 0]") := by
  have hnext1 : c.next = some (lo, { c with pos := c.pos + 1 }) := by
    unfold Ctx.next
    rw [if_pos (by omega), hlo]
  have hnext2 : Ctx.next { c with pos := c.pos + 1 } = some (hi, { c with pos := c.pos + 2 }) := by
    unfold Ctx.next
    simp only []
    rw [if_pos (by simpa using hlen)]
    have : ({ c with pos := c.pos + 1 } : Ctx).bytes.getD (c.pos + 1) 0 = hi := hhi
    rw [this]
  have hcalc : ∀ c' : Ctx, c'.segment = c.segment →
      c'.calculateEffectiveAddress 6 (uint16LE lo hi) 0 =
        .ok ((if c.segment = "" then "" else c.segment ++ ":") ++ "[" ++ natDec (uint16LE lo hi) ++ "]") := by
    intro c' hc'
    unfold Ctx.calculateEffectiveAddress
    by_cases hs : c.segment = ""
    · simp [hc', hs, String.append_assoc]
    · simp [hc', hs, String.append_assoc]
      rw [show (":[" : String) = ":" ++ "[" from rfl, String.append_assoc]
  refine ⟨?_, ?_, ?_, ?_⟩
  · unfold decodeUnaryRegOrMem
    simp [nextM, hnext1, hnext2, calcEA, liftRes, hcalc, bind, EStateM.bind, get, getThe,
      MonadStateOf.get, EStateM.get, pure, EStateM.pure]
  · have hvd0 : verifyDirection 0 = .ok () := by decide
    have hvd1 : verifyDirection 1 = .ok () := by decide
    unfold decodeBinaryRegOrMem
    rcases hdir with h | h <;>
      simp [h, hvd0, hvd1, nextM, hnext1, hnext2, calcEA, liftRes, hcalc, bind, EStateM.bind,
        get, getThe, MonadStateOf.get, EStateM.get, pure, EStateM.pure]
  · exact direct_operand_ne_bp _ _
  · exact direct_operand_ne_bp_plus_zero _ _

/-- C2 witness: buffer `[0x34, 0x12]` decodes as the direct address 4660. -/
theorem C2_witness :
    decodeUnaryRegOrMem "MOV" 0 6 true ⟨[0x34, 0x12], 0, "", []⟩
      = .ok "[4660]" ⟨[0x34, 0x12], 2, "", []⟩
    ∧ decodeBinaryRegOrMem "MOV" 0 3 6 true 1 ⟨[0x34, 0x12], 0, "", []⟩
      = .ok ("bx", "[4660]") ⟨[0x34, 0x12], 2, "", []⟩ := by
  have h := C2_direct_address ⟨[0x34, 0x12], 0, "", []⟩ "MOV" 3 true 1 0x34 0x12
    rfl rfl (by decide) (Or.inr rfl)
  constructor
  · have h1 := h.1
    rw [h1]
    decide
  · have h2 := h.2.1
    rw [h2]
    decide

theorem int8OfByte_mod (b : Nat) : int8OfByte (b % 256) = int8OfByte b := by
  unfold int8OfByte
  have h : b % 256 % 256 = b % 256 := by omega
  rw [h]

/-- C4: the 0x80-class immediate-arithmetic form with S=1 and W=1 (opcode
byte 0x83) in register mode consumes exactly one immediate byte after the
MOD/REG/R-M byte (the generic field decoder is invoked with width
`isWord && !isSigned`, which is false), and prints it as the sign-extended
signed value of that byte, so a source byte 11111110 prints as -2. -/
theorem C4_sign_extension (c : Ctx) (b2 b3 : Nat)
    (hb2 : c.bytes.getD c.pos 0 = b2) (hb3 : c.bytes.getD (c.pos + 1) 0 = b3)
    (hlen : c.pos + 1 < c.bytes.length)
    (hmod : b2 >>> 6 = 3) (hreg : (b2 >>> 3) &&& 7 = 0) :
    addImmediateToRegOrMem 0x83 c =
      .ok ("add " ++ WordOperationRegisterFieldEncoding (b2 &&& 7) ++ ", "
           ++ toString (int8OfByte b3) ++ "\n")
        { c with pos := c.pos + 2 } := by
  have hnext1 : c.next = some (b2, { c with pos := c.pos + 1 }) := by
    unfold Ctx.next
    rw [if_pos (by omega), hb2]
  have hnext2 : Ctx.next { c with pos := c.pos + 1 } = some (b3, { c with pos := c.pos + 2 }) := by
    unfold Ctx.next
    rw [if_pos (by simpa using hlen)]
    have : ({ c with pos := c.pos + 1 } : Ctx).bytes.getD (c.pos + 1) 0 = b3 := hb3
    rw [this]
  have hvo : verifyOperationType 1 = .ok () := by decide
  have hvs : verifySign 1 = .ok () := by decide
  unfold addImmediateToRegOrMem buildImmediateWithRegOrMemInstruction
  simp [hvo, hvs, nextM, hnext1, hnext2, decodeOperand, hmod, hreg, decodeUnaryRegOrMem,
    decodeImmediate, int8OfByte_mod, liftRes, bind, EStateM.bind, get, getThe,
    MonadStateOf.get, EStateM.get, pure, EStateM.pure, String.append_assoc]

/-- C4 witness: MOD/REG/R-M byte 0xC3 (register mode, REG extension 000,
R/M = bx) followed by the immediate byte 0xFE prints as -2 and consumes
exactly the two bytes. -/
theorem C4_witness :
    addImmediateToRegOrMem 0x83 ⟨[0xC3, 0xFE], 0, "", []⟩
      = .ok "add bx, -2\n" ⟨[0xC3, 0xFE], 2, "", []⟩ := by
  have h := C4_sign_extension ⟨[0xC3, 0xFE], 0, "", []⟩ 0xC3 0xFE rfl rfl
    (by decide) (by decide) (by decide)
  rw [h]
  decide

theorem countP_pairwise_le_one (nodes : List instructionNode) (L : Int)
    (hpw : List.Pairwise (fun a b => a.pos < b.pos) nodes) :
    nodes.countP (fun n => (n.pos : Int) - 1 == L) ≤ 1 := by
  induction nodes with
  | nil => simp
  | cons hd tl ih =>
    rcases List.pairwise_cons.mp hpw with ⟨hall, htl⟩
    rw [List.countP_cons]
    by_cases hhd : (hd.pos : Int) - 1 = L
    · have hz : tl.countP (fun n => (n.pos : Int) - 1 == L) = 0 := by
        rw [List.countP_eq_zero]
        intro n hn
        have h1 : hd.pos < n.pos := hall n hn
        simp only [beq_iff_eq]
        omega
      simp [hz, hhd]
    · have hle := ih htl
      simp only [beq_iff_eq, hhd]
      simpa using hle

/-- C6: the synthetic label name is a pure function of the absolute target
position (`label__<pos>`), so two branches resolving to the same target
record the identical name; `jumpConditionally` records exactly that name at
the target "position after the displacement plus the signed displacement";
and in the renderer, among instructions with strictly increasing start
positions, at most one instruction carries the label's declaration line,
which is emitted immediately before that instruction's own text. -/
theorem C6_label_idempotence :
    (∀ L : Int, createLabelName L = "label__" ++ toString L)
    ∧ (∀ (c : Ctx) (operation : Nat), c.bytes.length > c.pos →
        ∃ text, jumpConditionally operation c =
          .ok text { c with
                     pos := c.pos + 1,
                     labels := labelsInsert c.labels
                       (((c.pos + 1 : Nat) : Int) + int8OfByte (c.bytes.getD c.pos 0))
                       (createLabelName
                         (((c.pos + 1 : Nat) : Int) + int8OfByte (c.bytes.getD c.pos 0))) })
    ∧ (∀ (labels : List (Int × String)) (nodes : List instructionNode) (L : Int) (name : String),
        labelsLookup labels L = some name →
        List.Pairwise (fun a b => a.pos < b.pos) nodes →
        (nodes.countP (fun n => (n.pos : Int) - 1 == L) ≤ 1
         ∧ ∀ n ∈ nodes, (n.pos : Int) - 1 = L →
             renderNode labels n = name ++ ":\n" ++ n.value)) := by
  refine ⟨fun L => rfl, ?_, ?_⟩
  · intro c operation hlen
    have hnext1 : c.next = some (c.bytes.getD c.pos 0, { c with pos := c.pos + 1 }) := by
      unfold Ctx.next
      rw [if_pos (by omega)]
    unfold jumpConditionally
    by_cases hc : (match JumpAlternativeNames operation with
                   | some altName => "; " ++ altName
                   | none => "") = ""
    · refine ⟨JumpNames operation ++ " "
          ++ createLabelName (((c.pos + 1 : Nat) : Int) + int8OfByte (c.bytes.getD c.pos 0))
          ++ "\n", ?_⟩
      simp [hc, hnext1, nextM, bind, EStateM.bind, get, getThe, MonadStateOf.get,
        EStateM.get, pure, EStateM.pure, modify, modifyGet, MonadStateOf.modifyGet,
        EStateM.modifyGet]
    · refine ⟨JumpNames operation ++ " "
          ++ createLabelName (((c.pos + 1 : Nat) : Int) + int8OfByte (c.bytes.getD c.pos 0))
          ++ " "
          ++ (match JumpAlternativeNames operation with
              | some altName => "; " ++ altName
              | none => "")
          ++ "\n", ?_⟩
      simp [hc, hnext1, nextM, bind, EStateM.bind, get, getThe, MonadStateOf.get,
        EStateM.get, pure, EStateM.pure, modify, modifyGet, MonadStateOf.modifyGet,
        EStateM.modifyGet]
  · intro labels nodes L name hlk hpw
    refine ⟨countP_pairwise_le_one nodes L hpw, ?_⟩
    intro n hn heq
    unfold renderNode
    rw [heq, hlk]

/-- C6 witness: `JZ` (0x74) with displacement byte 0xF0 records the label
for target -15; a label at position 0 renders exactly once, directly before
the instruction that starts there. -/
theorem C6_witness :
    (∃ text, jumpConditionally 0x74 ⟨[0xF0], 0, "", []⟩
      = .ok text ⟨[0xF0], 1, "", [((-15 : Int), "label__-15")]⟩)
    ∧ renderNode [((0 : Int), "label__0")] ⟨"mov ax, bx\n", 1⟩ = "label__0:\nmov ax, bx\n"
    ∧ ([⟨"mov ax, bx\n", 1⟩, ⟨"JZ label__0\n", 3⟩] : List instructionNode).countP
        (fun n => (n.pos : Int) - 1 == 0) ≤ 1 := by
  have h := C6_label_idempotence
  refine ⟨?_, ?_, ?_⟩
  · obtain ⟨text, ht⟩ := h.2.1 ⟨[0xF0], 0, "", []⟩ 0x74 (by decide)
    refine ⟨text, ?_⟩
    rw [ht]
    congr 1 <;> decide
  · have h2 := (h.2.2 [((0 : Int), "label__0")]
      [⟨"mov ax, bx\n", 1⟩, ⟨"JZ label__0\n", 3⟩] 0 "label__0" (by decide)
      (by constructor
          · intro b hb
            rcases List.mem_cons.mp hb with h1 | h1
            · rw [h1]; decide
            · exact absurd h1 (List.not_mem_nil b)
          · constructor
            · intro b hb
              exact absurd hb (List.not_mem_nil b)
            · constructor)).2
      ⟨"mov ax, bx\n", 1⟩ (List.mem_cons_self _ _) (by decide)
    rw [h2]
    decide
  · exact (h.2.2 [((0 : Int), "label__0")]
      [⟨"mov ax, bx\n", 1⟩, ⟨"JZ label__0\n", 3⟩] 0 "label__0" (by decide)
      (by constructor
          · intro b hb
            rcases List.mem_cons.mp hb with h1 | h1
            · rw [h1]; decide
            · exact absurd h1 (List.not_mem_nil b)
          · constructor
            · intro b hb
              exact absurd hb (List.not_mem_nil b)
            · constructor)).1

theorem computeCacheKey_ne_empty (d : Decoder) : d.computeCacheKey ≠ "" := by
  unfold Decoder.computeCacheKey
  intro h
  have hlen := congrArg String.length h
  simp only [String.length_append] at hlen
  have h2 : ("n=" : String).length = 2 := rfl
  have h0 : ("" : String).length = 0 := rfl
  rw [h2, h0] at hlen
  omega

/-- C8: when the builder-level part of one decode iteration fails with an
error (for example, a required trailing byte is missing mid-instruction), the
failing instruction is not appended (the instruction list, cache key and
cached render are untouched), the decode loop aborts immediately propagating
exactly that error to `Decode`'s caller, and `GetDecoded` on the post-failure
state still returns the full render of the instructions completed before the
failure. -/
theorem C8_error_propagation (d : Decoder) (f : Fail) (d' : Decoder) (fuel : Nat)
    (hstep : decodeStep d = .error f d') :
    d'.nodes = d.nodes ∧ d'.cacheKey = d.cacheKey ∧ d'.decoded = d.decoded
    ∧ decodeLoop (fuel + 1) d = .error f d'
    ∧ (d.cacheKey = "" → (d'.GetDecoded).1 = renderNodes d'.ctx.labels d'.nodes)
    ∧ (d.ctx.pos = 0 → Decode d = .error f d') := by
  have hcore : ∃ c, stepCore d.ctx = .error f c ∧ d' = { d with ctx := c } := by
    unfold decodeStep at hstep
    cases hsc : stepCore d.ctx with
    | ok a c =>
      rw [hsc] at hstep
      rcases a with _ | ⟨ip, instr⟩ <;> simp at hstep
    | error f2 c =>
      rw [hsc] at hstep
      simp only [EStateM.Result.error.injEq] at hstep
      exact ⟨c, by rw [hstep.1], hstep.2.symm⟩
  obtain ⟨c, hsc, hd'⟩ := hcore
  have hnodes : d'.nodes = d.nodes := by rw [hd']
  have hkey : d'.cacheKey = d.cacheKey := by rw [hd']
  have hdec : d'.decoded = d.decoded := by rw [hd']
  have hloop : ∀ fl : Nat, decodeLoop (fl + 1) d = .error f d' := by
    intro fl
    unfold decodeLoop
    simp only [bind, EStateM.bind, hstep]
  refine ⟨hnodes, hkey, hdec, hloop fuel, ?_, ?_⟩
  · intro hck
    unfold Decoder.GetDecoded
    have hne : d'.computeCacheKey ≠ d'.cacheKey := by
      rw [hkey, hck]
      exact computeCacheKey_ne_empty d'
    simp [hne]
  · intro hpos
    have heta : { d with ctx := { d.ctx with pos := 0 } } = d := by
      rw [← hpos]
    unfold Decode
    simp only [bind, EStateM.bind, modify, modifyGet, MonadStateOf.modifyGet,
      EStateM.modifyGet, get, getThe, MonadStateOf.get, EStateM.get, heta]
    rw [hloop d.ctx.bytes.length]

/-- C8 witness: the three-byte input `89 06 10` is a word MOV whose MOD=00,
R/M=110 operand requires a 16-bit direct address, but only the low byte is
present; decoding fails with the error naming the instruction and the
missing field, appends nothing, and the full `Decode` pass surfaces exactly
that error. -/
theorem C8_witness :
    decodeStep (NewDecoder [0x89, 0x06, 0x10]) =
      .error (.failure "expected to receive the High displacement value for direct address in the 'Register/memory to/from register' instruction")
        { ctx := { bytes := [0x89, 0x06, 0x10], pos := 3, segment := "", labels := [] },
          nodes := [], cacheKey := "", decoded := "" }
    ∧ Decode (NewDecoder [0x89, 0x06, 0x10]) =
      .error (.failure "expected to receive the High displacement value for direct address in the 'Register/memory to/from register' instruction")
        { ctx := { bytes := [0x89, 0x06, 0x10], pos := 3, segment := "", labels := [] },
          nodes := [], cacheKey := "", decoded := "" }
    ∧ ({ ctx := { bytes := [0x89, 0x06, 0x10], pos := 3, segment := "", labels := [] },
         nodes := [], cacheKey := "", decoded := "" } : Decoder).nodes
        = (NewDecoder [0x89, 0x06, 0x10]).nodes := by
  have hstep : decodeStep (NewDecoder [0x89, 0x06, 0x10]) =
      .error (.failure "expected to receive the High displacement value for direct address in the 'Register/memory to/from register' instruction")
        { ctx := { bytes := [0x89, 0x06, 0x10], pos := 3, segment := "", labels := [] },
          nodes := [], cacheKey := "", decoded := "" } := by decide
  have h := C8_error_propagation (NewDecoder [0x89, 0x06, 0x10]) _ _ 0 hstep
  exact ⟨hstep, h.2.2.2.2.2 rfl, h.1⟩


theorem repeatPrefix_ok (operation : Nat) (c : Ctx) :
    repeatPrefix operation c = .ok (repValue operation c.peekNext) c := by
  have hand : operation &&& 1 = operation % 2 := Nat.and_one_is_mod operation
  have hloop : operation % 2 = 0 ∨ operation % 2 = 1 := Nat.mod_two_eq_zero_or_one operation
  have hverify : verifyLoop (operation % 2) = .ok () := by
    rcases hloop with h | h <;> rw [h] <;> decide
  have hv0 : verifyLoop 0 = .ok () := by decide
  have hv1 : verifyLoop 1 = .ok () := by decide
  have hcs : (("cmps" : String) = "cmps" ∨ ("cmps" : String) = "scas") := Or.inl rfl
  have hss : (("scas" : String) = "cmps" ∨ ("scas" : String) = "scas") := Or.inr rfl
  have hmv : ¬ (("movs" : String) = "cmps" ∨ ("movs" : String) = "scas") := by decide
  have hld : ¬ (("lods" : String) = "cmps" ∨ ("lods" : String) = "scas") := by decide
  have hst : ¬ (("stos" : String) = "cmps" ∨ ("stos" : String) = "scas") := by decide
  cases hpeek : c.peekNext with
  | none =>
    unfold repeatPrefix
    simp [repValue, hand, hverify, hv0, hv1, hpeek, liftRes, bind, EStateM.bind, get, getThe,
      MonadStateOf.get, EStateM.get, pure, EStateM.pure]
  | some nxt =>
    by_cases h1 : nxt >>> 1 = 0b1010010
    · unfold repeatPrefix
      simp [repValue, hand, hverify, hv0, hv1, hpeek, h1, hmv, liftRes, bind, EStateM.bind, get,
        getThe, MonadStateOf.get, EStateM.get, pure, EStateM.pure]
    · by_cases h2 : nxt >>> 1 = 0b1010011
      · unfold repeatPrefix
        rcases hloop with h | h <;>
          simp [repValue, hand, hverify, hv0, hv1, hpeek, h1, h2, h, hcs, LoopWhileZero, liftRes,
            bind, EStateM.bind, get, getThe, MonadStateOf.get, EStateM.get, pure, EStateM.pure]
      · by_cases h3 : nxt >>> 1 = 0b1010111
        · unfold repeatPrefix
          rcases hloop with h | h <;>
            simp [repValue, hand, hverify, hv0, hv1, hpeek, h1, h2, h3, h, hss, LoopWhileZero,
              liftRes, bind, EStateM.bind, get, getThe, MonadStateOf.get, EStateM.get, pure,
              EStateM.pure]
        · by_cases h4 : nxt >>> 1 = 0b1010110
          · unfold repeatPrefix
            simp [repValue, hand, hverify, hv0, hv1, hpeek, h1, h2, h3, h4, hld, liftRes, bind,
              EStateM.bind, get, getThe, MonadStateOf.get, EStateM.get, pure, EStateM.pure]
          · by_cases h5 : nxt >>> 1 = 0b1010101
            · unfold repeatPrefix
              simp [repValue, hand, hverify, hv0, hv1, hpeek, h1, h2, h3, h4, h5, hst, liftRes,
                bind, EStateM.bind, get, getThe, MonadStateOf.get, EStateM.get, pure, EStateM.pure]
            · unfold repeatPrefix
              simp [repValue, hand, hverify, hv0, hv1, hpeek, h1, h2, h3, h4, h5, liftRes, bind,
                EStateM.bind, get, getThe, MonadStateOf.get, EStateM.get, pure, EStateM.pure]

theorem append_space_ne_empty (s : String) : s ++ " " ≠ "" := by
  intro h
  have hlen := congrArg String.length h
  rw [String.length_append] at hlen
  have h1 : (" " : String).length = 1 := rfl
  have h0 : ("" : String).length = 0 := rfl
  rw [h1, h0] at hlen
  omega

theorem matchPatternGo_single (c : Ctx) (name : String) (cand : Nat) (q : List Char)
    (hq : q.length = 8) :
    matchPatternGo c name cand 0 [('0' :: 'b' :: q)] = .ok (templateMatches cand q) := by
  cases htm : templateMatches cand q <;>
    simp [matchPatternGo, hq, htm]

theorem matchPatternFn_single (c : Ctx) (name : String) (cand : Nat) (pattern : String)
    (q : List Char) (hsplit : splitOnPipe pattern = [('0' :: 'b' :: q)]) (hq : q.length = 8) :
    matchPatternFn c name cand pattern = .ok (templateMatches cand q) := by
  unfold matchPatternFn
  rw [hsplit]
  exact matchPatternGo_single c name cand q hq

theorem matchPattern_single (name : String) (cand : Nat) (pattern : String)
    (q : List Char) (hsplit : splitOnPipe pattern = [('0' :: 'b' :: q)]) (hq : q.length = 8)
    (c : Ctx) :
    matchPattern name cand pattern c = .ok (templateMatches cand q) c := by
  unfold matchPattern
  rw [matchPatternFn_single c name cand pattern q hsplit hq]

theorem matchPattern_lock (cand : Nat) (c : Ctx) :
    matchPattern "LOCK: Bus lock prefix" cand "0b11110000" c
      = .ok (templateMatches cand ['1', '1', '1', '1', '0', '0', '0', '0']) c :=
  matchPattern_single _ cand _ _ (by decide) (by decide) c

theorem matchPattern_rep (cand : Nat) (c : Ctx) :
    matchPattern "REP: Repeat" cand "0b1111001z" c
      = .ok (templateMatches cand ['1', '1', '1', '1', '0', '0', '1', 'z']) c :=
  matchPattern_single _ cand _ _ (by decide) (by decide) c

theorem matchPattern_seg (cand : Nat) (c : Ctx) :
    matchPattern "SEGMENT: override prefix" cand "0b001__110" c
      = .ok (templateMatches cand ['0', '0', '1', '_', '_', '1', '1', '0']) c :=
  matchPattern_single _ cand _ _ (by decide) (by decide) c

theorem nextM_eval_some (c : Ctx) (h : c.pos < c.bytes.length) :
    nextM c = .ok (some (c.bytes.getD c.pos 0)) { c with pos := c.pos + 1 } := by
  unfold nextM Ctx.next
  simp [h]

theorem nextM_eval_none (c : Ctx) (h : c.bytes.length ≤ c.pos) :
    nextM c = .ok none c := by
  unfold nextM Ctx.next
  simp [Nat.not_lt.mpr h]

/-- C9: whenever the prefix scan preceding an instruction's opcode dispatch
succeeds and hands an opcode to the dispatcher, the active segment override
is empty unless the byte immediately before that opcode (two positions back
from the final cursor) matched the segment-override pattern 001__110, in
which case the override is exactly the one computed from that byte; and the
whole scan - result and final state, the override included - is independent
of whatever override an earlier instruction left behind, because the
override register is cleared or freshly re-set before every dispatch. -/
theorem C9_segment_override (c : Ctx) (r : Nat × String × Nat) (c' : Ctx)
    (h : scanPrefixes c = .ok (some r) c') :
    (∀ s, scanPrefixes { c with segment := s } = .ok (some r) c')
    ∧ (c'.segment = ""
       ∨ (2 ≤ c'.pos
          ∧ matchPatternFn c' "SEGMENT: override prefix"
              (c'.bytes.getD (c'.pos - 2) 0) "0b001__110" = .ok true
          ∧ c'.segment = segmentPrefix (c'.bytes.getD (c'.pos - 2) 0))) := by
  by_cases h1 : c.pos < c.bytes.length
  case neg =>
    exfalso
    unfold scanPrefixes at h
    simp [nextM_eval_none c (Nat.le_of_not_lt h1), bind, EStateM.bind, pure, EStateM.pure] at h
  case pos =>
    unfold scanPrefixes at h
    simp [nextM_eval_some c h1, bind, EStateM.bind, get, getThe, MonadStateOf.get, EStateM.get,
      pure, EStateM.pure, matchPattern_lock, matchPattern_rep, matchPattern_seg,
      repeatPrefix_ok, modify, modifyGet, MonadStateOf.modifyGet, EStateM.modifyGet] at h
    by_cases hL : templateMatches (c.bytes[c.pos]?.getD 0) ['1', '1', '1', '1', '0', '0', '0', '0'] = true
    · simp [hL, bind, EStateM.bind, get, getThe, MonadStateOf.get, EStateM.get,
        pure, EStateM.pure, matchPattern_lock, matchPattern_rep, matchPattern_seg,
        repeatPrefix_ok, modify, modifyGet, MonadStateOf.modifyGet, EStateM.modifyGet] at h
      by_cases h2 : c.pos + 1 < c.bytes.length
      · have hn2 := nextM_eval_some ⟨c.bytes, c.pos + 1, c.segment, c.labels⟩ h2
        simp [hn2, bind, EStateM.bind, get, getThe, MonadStateOf.get, EStateM.get,
        pure, EStateM.pure, matchPattern_lock, matchPattern_rep, matchPattern_seg,
        repeatPrefix_ok, modify, modifyGet, MonadStateOf.modifyGet, EStateM.modifyGet] at h
        by_cases hS : templateMatches (c.bytes[c.pos + 1]?.getD 0) ['0', '0', '1', '_', '_', '1', '1', '0'] = true
        · simp [hS, bind, EStateM.bind, get, getThe, MonadStateOf.get, EStateM.get,
          pure, EStateM.pure, matchPattern_lock, matchPattern_rep, matchPattern_seg,
          repeatPrefix_ok, modify, modifyGet, MonadStateOf.modifyGet, EStateM.modifyGet] at h
          by_cases h3 : c.pos + 1 + 1 < c.bytes.length
          · have hn3 := nextM_eval_some ⟨c.bytes, c.pos + 1 + 1,
              segmentPrefix (c.bytes[c.pos + 1]?.getD 0), c.labels⟩ h3
            simp [hn3, bind, EStateM.bind, get, getThe, MonadStateOf.get, EStateM.get,
          pure, EStateM.pure, matchPattern_lock, matchPattern_rep, matchPattern_seg,
          repeatPrefix_ok, modify, modifyGet, MonadStateOf.modifyGet, EStateM.modifyGet] at h
            obtain ⟨hr, hc'⟩ := h
            subst hr
            subst hc'
            constructor
            · intro s
              have hn1s := nextM_eval_some ⟨c.bytes, c.pos, s, c.labels⟩ h1
              have hn2s := nextM_eval_some ⟨c.bytes, c.pos + 1, s, c.labels⟩ h2
              have hn3s := nextM_eval_some ⟨c.bytes, c.pos + 1 + 1,
                segmentPrefix (c.bytes[c.pos + 1]?.getD 0), c.labels⟩ h3
              unfold scanPrefixes
              simp [hn1s, hn2s, hn3s, hL, hS, bind, EStateM.bind, get, getThe, MonadStateOf.get, EStateM.get,
                pure, EStateM.pure, matchPattern_lock, matchPattern_rep, matchPattern_seg,
                repeatPrefix_ok, modify, modifyGet, MonadStateOf.modifyGet, EStateM.modifyGet]
            · refine Or.inr ⟨by show 2 ≤ c.pos + 1 + 1 + 1; omega, ?_, ?_⟩
              · have hidx : c.pos + 1 + 1 + 1 - 2 = c.pos + 1 := by omega
                rw [matchPatternFn_single _ _ _ _ ['0', '0', '1', '_', '_', '1', '1', '0']
                  (by decide) (by decide)]
                simp [hidx, hS]
              · have hidx : c.pos + 1 + 1 + 1 - 2 = c.pos + 1 := by omega
                simp [hidx]
          · have hn3 := nextM_eval_none ⟨c.bytes, c.pos + 1 + 1,
              segmentPrefix (c.bytes[c.pos + 1]?.getD 0), c.labels⟩ (Nat.le_of_not_lt h3)
            simp [hn3, bind, EStateM.bind, get, getThe, MonadStateOf.get, EStateM.get,
          pure, EStateM.pure, matchPattern_lock, matchPattern_rep, matchPattern_seg,
          repeatPrefix_ok, modify, modifyGet, MonadStateOf.modifyGet, EStateM.modifyGet] at h
        · simp [hS, bind, EStateM.bind, get, getThe, MonadStateOf.get, EStateM.get,
          pure, EStateM.pure, matchPattern_lock, matchPattern_rep, matchPattern_seg,
          repeatPrefix_ok, modify, modifyGet, MonadStateOf.modifyGet, EStateM.modifyGet] at h
          obtain ⟨hr, hc'⟩ := h
          subst hr
          subst hc'
          constructor
          · intro s
            have hn1s := nextM_eval_some ⟨c.bytes, c.pos, s, c.labels⟩ h1
            have hn2s := nextM_eval_some ⟨c.bytes, c.pos + 1, s, c.labels⟩ h2
            unfold scanPrefixes
            simp [hn1s, hn2s, hL, hS, bind, EStateM.bind, get, getThe, MonadStateOf.get, EStateM.get,
              pure, EStateM.pure, matchPattern_lock, matchPattern_rep, matchPattern_seg,
              repeatPrefix_ok, modify, modifyGet, MonadStateOf.modifyGet, EStateM.modifyGet]
          · exact Or.inl rfl
      · have hn2 := nextM_eval_none ⟨c.bytes, c.pos + 1, c.segment, c.labels⟩ (Nat.le_of_not_lt h2)
        simp [hn2, bind, EStateM.bind, get, getThe, MonadStateOf.get, EStateM.get,
        pure, EStateM.pure, matchPattern_lock, matchPattern_rep, matchPattern_seg,
        repeatPrefix_ok, modify, modifyGet, MonadStateOf.modifyGet, EStateM.modifyGet] at h
    · simp [hL, bind, EStateM.bind, get, getThe, MonadStateOf.get, EStateM.get,
        pure, EStateM.pure, matchPattern_lock, matchPattern_rep, matchPattern_seg,
        repeatPrefix_ok, modify, modifyGet, MonadStateOf.modifyGet, EStateM.modifyGet] at h
      by_cases hR : templateMatches (c.bytes[c.pos]?.getD 0) ['1', '1', '1', '1', '0', '0', '1', 'z'] = true
      · by_cases h2 : c.pos + 1 < c.bytes.length
        · have hn2 := nextM_eval_some ⟨c.bytes, c.pos + 1, c.segment, c.labels⟩ h2
          simp [hR, h2, hn2, Ctx.peekNext, append_space_ne_empty, bind, EStateM.bind, get, getThe, MonadStateOf.get, EStateM.get,
          pure, EStateM.pure, matchPattern_lock, matchPattern_rep, matchPattern_seg,
          repeatPrefix_ok, modify, modifyGet, MonadStateOf.modifyGet, EStateM.modifyGet] at h
          by_cases hS : templateMatches c.bytes[c.pos + 1] ['0', '0', '1', '_', '_', '1', '1', '0'] = true
          · simp [hS, bind, EStateM.bind, get, getThe, MonadStateOf.get, EStateM.get,
            pure, EStateM.pure, matchPattern_lock, matchPattern_rep, matchPattern_seg,
            repeatPrefix_ok, modify, modifyGet, MonadStateOf.modifyGet, EStateM.modifyGet] at h
            by_cases h3 : c.pos + 1 + 1 < c.bytes.length
            · have hn3 := nextM_eval_some ⟨c.bytes, c.pos + 1 + 1,
                segmentPrefix c.bytes[c.pos + 1], c.labels⟩ h3
              simp [hn3, bind, EStateM.bind, get, getThe, MonadStateOf.get, EStateM.get,
              pure, EStateM.pure, matchPattern_lock, matchPattern_rep, matchPattern_seg,
              repeatPrefix_ok, modify, modifyGet, MonadStateOf.modifyGet, EStateM.modifyGet] at h
              obtain ⟨hr, hc'⟩ := h
              subst hr
              subst hc'
              constructor
              · intro s
                have hn1s := nextM_eval_some ⟨c.bytes, c.pos, s, c.labels⟩ h1
                have hn2s := nextM_eval_some ⟨c.bytes, c.pos + 1, s, c.labels⟩ h2
                have hn3s := nextM_eval_some ⟨c.bytes, c.pos + 1 + 1,
                  segmentPrefix c.bytes[c.pos + 1], c.labels⟩ h3
                unfold scanPrefixes
                simp [hn1s, hn2s, hn3s, hL, hR, hS, h2, Ctx.peekNext, append_space_ne_empty,
                  bind, EStateM.bind, get, getThe, MonadStateOf.get, EStateM.get,
                  pure, EStateM.pure, matchPattern_lock, matchPattern_rep, matchPattern_seg,
                  repeatPrefix_ok, modify, modifyGet, MonadStateOf.modifyGet, EStateM.modifyGet]
              · refine Or.inr ⟨by show 2 ≤ c.pos + 1 + 1 + 1; omega, ?_, ?_⟩
                · have hidx : c.pos + 1 + 1 + 1 - 2 = c.pos + 1 := by omega
                  rw [matchPatternFn_single _ _ _ _ ['0', '0', '1', '_', '_', '1', '1', '0']
                    (by decide) (by decide)]
                  simp [hidx, hS, h2]
                · have hidx : c.pos + 1 + 1 + 1 - 2 = c.pos + 1 := by omega
                  simp [hidx, h2]
            · have hn3 := nextM_eval_none ⟨c.bytes, c.pos + 1 + 1,
                segmentPrefix c.bytes[c.pos + 1], c.labels⟩ (Nat.le_of_not_lt h3)
              simp [hn3, bind, EStateM.bind, get, getThe, MonadStateOf.get, EStateM.get,
              pure, EStateM.pure, matchPattern_lock, matchPattern_rep, matchPattern_seg,
              repeatPrefix_ok, modify, modifyGet, MonadStateOf.modifyGet, EStateM.modifyGet] at h
          · simp [hS, bind, EStateM.bind, get, getThe, MonadStateOf.get, EStateM.get,
            pure, EStateM.pure, matchPattern_lock, matchPattern_rep, matchPattern_seg,
            repeatPrefix_ok, modify, modifyGet, MonadStateOf.modifyGet, EStateM.modifyGet] at h
            obtain ⟨hr, hc'⟩ := h
            subst hr
            subst hc'
            constructor
            · intro s
              have hn1s := nextM_eval_some ⟨c.bytes, c.pos, s, c.labels⟩ h1
              have hn2s := nextM_eval_some ⟨c.bytes, c.pos + 1, s, c.labels⟩ h2
              unfold scanPrefixes
              simp [hn1s, hn2s, hL, hR, hS, h2, Ctx.peekNext, append_space_ne_empty,
                bind, EStateM.bind, get, getThe, MonadStateOf.get, EStateM.get,
                pure, EStateM.pure, matchPattern_lock, matchPattern_rep, matchPattern_seg,
                repeatPrefix_ok, modify, modifyGet, MonadStateOf.modifyGet, EStateM.modifyGet]
            · exact Or.inl rfl
        · have hn2 := nextM_eval_none ⟨c.bytes, c.pos + 1, c.segment, c.labels⟩ (Nat.le_of_not_lt h2)
          simp [hR, hn2, Ctx.peekNext, append_space_ne_empty, bind, EStateM.bind, get, getThe, MonadStateOf.get, EStateM.get,
          pure, EStateM.pure, matchPattern_lock, matchPattern_rep, matchPattern_seg,
          repeatPrefix_ok, modify, modifyGet, MonadStateOf.modifyGet, EStateM.modifyGet] at h
      · simp [hR, bind, EStateM.bind, get, getThe, MonadStateOf.get, EStateM.get,
        pure, EStateM.pure, matchPattern_lock, matchPattern_rep, matchPattern_seg,
        repeatPrefix_ok, modify, modifyGet, MonadStateOf.modifyGet, EStateM.modifyGet] at h
        by_cases hS : templateMatches (c.bytes[c.pos]?.getD 0) ['0', '0', '1', '_', '_', '1', '1', '0'] = true
        · simp [hS, bind, EStateM.bind, get, getThe, MonadStateOf.get, EStateM.get,
          pure, EStateM.pure, matchPattern_lock, matchPattern_rep, matchPattern_seg,
          repeatPrefix_ok, modify, modifyGet, MonadStateOf.modifyGet, EStateM.modifyGet] at h
          by_cases h2 : c.pos + 1 < c.bytes.length
          · have hn3 := nextM_eval_some ⟨c.bytes, c.pos + 1,
              segmentPrefix (c.bytes[c.pos]?.getD 0), c.labels⟩ h2
            simp [hn3, bind, EStateM.bind, get, getThe, MonadStateOf.get, EStateM.get,
            pure, EStateM.pure, matchPattern_lock, matchPattern_rep, matchPattern_seg,
            repeatPrefix_ok, modify, modifyGet, MonadStateOf.modifyGet, EStateM.modifyGet] at h
            obtain ⟨hr, hc'⟩ := h
            subst hr
            subst hc'
            constructor
            · intro s
              have hn1s := nextM_eval_some ⟨c.bytes, c.pos, s, c.labels⟩ h1
              have hn3s := nextM_eval_some ⟨c.bytes, c.pos + 1,
                segmentPrefix (c.bytes[c.pos]?.getD 0), c.labels⟩ h2
              unfold scanPrefixes
              simp [hn1s, hn3s, hL, hR, hS, bind, EStateM.bind, get, getThe, MonadStateOf.get, EStateM.get,
                pure, EStateM.pure, matchPattern_lock, matchPattern_rep, matchPattern_seg,
                repeatPrefix_ok, modify, modifyGet, MonadStateOf.modifyGet, EStateM.modifyGet]
            · refine Or.inr ⟨by show 2 ≤ c.pos + 1 + 1; omega, ?_, ?_⟩
              · have hidx : c.pos + 1 + 1 - 2 = c.pos := by omega
                rw [matchPatternFn_single _ _ _ _ ['0', '0', '1', '_', '_', '1', '1', '0']
                  (by decide) (by decide)]
                simp [hidx, hS]
              · have hidx : c.pos + 1 + 1 - 2 = c.pos := by omega
                simp [hidx]
          · have hn3 := nextM_eval_none ⟨c.bytes, c.pos + 1,
              segmentPrefix (c.bytes[c.pos]?.getD 0), c.labels⟩ (Nat.le_of_not_lt h2)
            simp [hn3, bind, EStateM.bind, get, getThe, MonadStateOf.get, EStateM.get,
            pure, EStateM.pure, matchPattern_lock, matchPattern_rep, matchPattern_seg,
            repeatPrefix_ok, modify, modifyGet, MonadStateOf.modifyGet, EStateM.modifyGet] at h
        · simp [hS, bind, EStateM.bind, get, getThe, MonadStateOf.get, EStateM.get,
          pure, EStateM.pure, matchPattern_lock, matchPattern_rep, matchPattern_seg,
          repeatPrefix_ok, modify, modifyGet, MonadStateOf.modifyGet, EStateM.modifyGet] at h
          obtain ⟨hr, hc'⟩ := h
          subst hr
          subst hc'
          constructor
          · intro s
            have hn1s := nextM_eval_some ⟨c.bytes, c.pos, s, c.labels⟩ h1
            unfold scanPrefixes
            simp [hn1s, hL, hR, hS, bind, EStateM.bind, get, getThe, MonadStateOf.get, EStateM.get,
              pure, EStateM.pure, matchPattern_lock, matchPattern_rep, matchPattern_seg,
              repeatPrefix_ok, modify, modifyGet, MonadStateOf.modifyGet, EStateM.modifyGet]
          · exact Or.inl rfl

/-- C9 witness: on the bytes `2E 00` (a CS override prefix before the opcode)
the prefix scan sets the override to `cs` - derived from the override byte
just before the opcode - and a stale override `stale` or `es` left by a
previous instruction makes no difference to the result. -/
theorem C9_witness :
    scanPrefixes ⟨[0x2E, 0x00], 0, "stale", []⟩
      = .ok (some (1, "", 0x00)) ⟨[0x2E, 0x00], 2, "cs", []⟩
    ∧ scanPrefixes ⟨[0x2E, 0x00], 0, "es", []⟩
      = .ok (some (1, "", 0x00)) ⟨[0x2E, 0x00], 2, "cs", []⟩
    ∧ ((⟨[0x2E, 0x00], 2, "cs", []⟩ : Ctx).segment
        = segmentPrefix ((⟨[0x2E, 0x00], 2, "cs", []⟩ : Ctx).bytes.getD 0 0)) := by
  have h := C9_segment_override ⟨[0x2E, 0x00], 0, "stale", []⟩ (1, "", 0x00)
    ⟨[0x2E, 0x00], 2, "cs", []⟩ (by decide)
  refine ⟨by decide, h.1 "es", ?_⟩
  rcases h.2 with h | h
  · exact absurd h (by decide)
  · exact h.2.2

/-- C1 counterexample: no assembler satisfies the round-trip law for all
supported encodings, because `Decode` renders the two distinct valid byte
sequences `89 D8` and `8B C3` (register-to-register word MOVs with the
direction bit flipped) as the identical text `mov ax, bx`, so any single
`assemble` function fails to reproduce at least one of them. -/
theorem C1_counterexample :
    ¬ ∃ assemble : String → List Nat, RoundTripLaw assemble := by
  rintro ⟨assemble, hlaw⟩
  have h1 : decodedText [0x89, 0xD8] = some "mov ax, bx\n" := by decide
  have h2 : decodedText [0x8B, 0xC3] = some "mov ax, bx\n" := by decide
  have e1 := hlaw _ _ h1
  have e2 := hlaw _ _ h2
  rw [e1] at e2
  exact absurd e2 (by decide)

/-- C1 (amended): `Decode` maps the two distinct supported encodings `89 D8`
and `8B C3` to the same rendered text `mov ax, bx`, so the round-trip law
can hold at most on a canonical choice of encodings: any assembler that
reproduces the first encoding from this text necessarily violates the law
on the second. -/
theorem C1_roundtrip_amended :
    decodedText [0x89, 0xD8] = some "mov ax, bx\n"
    ∧ decodedText [0x8B, 0xC3] = some "mov ax, bx\n"
    ∧ ([0x89, 0xD8] : List Nat) ≠ [0x8B, 0xC3]
    ∧ ∀ assemble : String → List Nat,
        assemble "mov ax, bx\n" = [0x89, 0xD8] → ¬ RoundTripLaw assemble := by
  refine ⟨by decide, by decide, by decide, ?_⟩
  intro assemble hfix hlaw
  have h2 : decodedText [0x8B, 0xC3] = some "mov ax, bx\n" := by decide
  have e2 := hlaw _ _ h2
  rw [hfix] at e2
  exact absurd e2 (by decide)


end Sim86
